import Mathlib

/-!
Verification of the show-to-week organizer and artist-name matching engine of
the nyc-gigs repository (src/src/utils/weeklyShows.js and the shared
normalize module).

The JavaScript code is shallowly embedded in Lean:

* A JavaScript `Date` holding a local midnight is modelled by its civil day
  number (days since 1970-01-01, negative before).  All dates constructed by
  the code under verification sit at local midnight (or at 23:59:59.999 of
  the same civil day, for `weekEnd`), so the day number captures exactly the
  information the code reads back out of a `Date` (`getFullYear`, `getMonth`,
  `getDate`, `getDay`).
* The conversions between day numbers and civil year/month/day triples follow
  the ECMAScript `MakeDay` / date-component specification for the proleptic
  Gregorian calendar, implemented with the standard era decomposition.
  `/` and `%` on `Int` are Euclidean (`Int.ediv`/`Int.emod`), which agrees
  with the floor-based arithmetic of the ECMAScript specification for the
  positive literal divisors used here.
* Strings are modelled by Lean `String`/`List Char`; arbitrary JavaScript
  values reaching the code from noisy upstream sources are modelled by the
  inductive type `JVal` further below.

Section 1: the Gregorian calendar / ECMAScript Date model and its
round-trip theorems.
-/

/-- Auxiliary (proof machinery): the year-of-era recovery expression of the
era decomposition, on natural numbers. -/
def fN (doe : Nat) : Nat := doe - doe / 1460 + doe / 36524 - doe / 146096

/-- Auxiliary: day-of-era of the first day of year-of-era `yoe` (March-based
years). -/
def sN (yoe : Nat) : Nat := 365 * yoe + yoe / 4 - yoe / 100

/-- Auxiliary: 1 when the shifted year `yoe` contains a leap day. -/
def lN (yoe : Nat) : Nat :=
  if ((yoe + 1) % 4 = 0 ∧ (yoe + 1) % 100 ≠ 0) ∨ (yoe + 1) % 400 = 0 then 1 else 0

/-- Auxiliary: boundary check for the year-of-era recovery, decidable per
year-of-era. -/
def checkYoe (yoe : Nat) : Bool :=
  decide (365 * yoe ≤ fN (sN yoe)) && decide (fN (sN yoe + 364 + lN yoe) ≤ 365 * yoe + 364)

set_option maxRecDepth 10000 in
theorem allCheck : ∀ yoe : Nat, yoe < 400 → checkYoe yoe = true := by decide

theorem fN_mono_step (x : Nat) : fN x ≤ fN (x + 1) := by
  unfold fN; omega

theorem fN_mono {x y : Nat} (h : x ≤ y) : fN x ≤ fN y := by
  induction y with
  | zero => simp_all
  | succ n ih =>
    rcases Nat.lt_or_ge x (n + 1) with h2 | h2
    · exact le_trans (ih (by omega)) (fN_mono_step n)
    · have hx : x = n + 1 := by omega
      subst hx; rfl

theorem sN_step (w : Nat) (h : w ≤ 398) : sN (w + 1) = sN w + 365 + lN w := by
  unfold sN lN
  split <;> omega

theorem sN_surj (doe : Nat) (h : doe ≤ 146096) :
    ∃ w, w ≤ 399 ∧ sN w ≤ doe ∧ doe ≤ sN w + 364 + lN w := by
  induction doe with
  | zero => exact ⟨0, by norm_num, by norm_num [sN], by norm_num⟩
  | succ n ih =>
    obtain ⟨w, hw, hlo, hhi⟩ := ih (by omega)
    rcases Nat.lt_or_ge n (sN w + 364 + lN w) with h2 | h2
    · exact ⟨w, hw, by omega, by omega⟩
    · rcases Nat.lt_or_ge w 399 with h3 | h3
      · refine ⟨w + 1, by omega, ?_, ?_⟩ <;> rw [sN_step w (by omega)] <;> omega
      · exfalso
        have hw399 : w = 399 := by omega
        subst hw399
        have e1 : sN 399 = 145731 := by decide
        have e2 : lN 399 = 1 := by decide
        omega

theorem yoe_recover (w doy : Nat) (hw : w ≤ 399) (hdoy : doy ≤ 364 + lN w) :
    fN (sN w + doy) / 365 = w := by
  have hc := allCheck w (by omega)
  unfold checkYoe at hc
  rw [Bool.and_eq_true, decide_eq_true_eq, decide_eq_true_eq] at hc
  have h1 : fN (sN w) ≤ fN (sN w + doy) := fN_mono (by omega)
  have h2 : fN (sN w + doy) ≤ fN (sN w + 364 + lN w) := fN_mono (by omega)
  omega

theorem g_doe (doe : Nat) (h : doe ≤ 146096) :
    fN doe / 365 ≤ 399 ∧ sN (fN doe / 365) ≤ doe ∧ doe ≤ sN (fN doe / 365) + 364 + lN (fN doe / 365) := by
  obtain ⟨w, hw, hlo, hhi⟩ := sN_surj doe h
  have hfw : fN doe / 365 = w := by
    have hr := yoe_recover w (doe - sN w) hw (by omega)
    have heq : sN w + (doe - sN w) = doe := by omega
    rw [heq] at hr
    exact hr
  rw [hfw]
  exact ⟨hw, hlo, hhi⟩

/-- Day number of the civil date given by year `y`, month `m` (1 to 12) and
day-of-month `d` (`d` may lie outside the month: the excess rolls over, as in
ECMAScript `MakeDay`).  Standard era decomposition of the proleptic Gregorian
calendar. -/
def daysFromCivil (y m d : Int) : Int :=
  let y2 := if m ≤ 2 then y - 1 else y
  let era := y2 / 400
  let yoe := y2 - era * 400
  let mp := if m ≤ 2 then m + 9 else m - 3
  let doy := (153 * mp + 2) / 5 + d - 1
  let doe := yoe * 365 + yoe / 4 - yoe / 100 + doy
  era * 146097 + doe - 719468

/-- ECMAScript `MakeDay(y, m, d)`: the month `m` is a zero-based month index
of any size; it is normalised into the year before the civil conversion. -/
def jsMakeDay (y m d : Int) : Int :=
  daysFromCivil (y + m / 12) (m % 12 + 1) d

/-- Gregorian leap-year predicate (as in the ECMAScript specification). -/
def isLeap (y : Int) : Bool :=
  decide ((y % 4 = 0 ∧ y % 100 ≠ 0) ∨ y % 400 = 0)

/-- Number of days in zero-based month `m` of year `y`. -/
def daysInMonth (y m : Int) : Int :=
  if m = 1 then (if isLeap y then 29 else 28)
  else if m = 3 ∨ m = 5 ∨ m = 8 ∨ m = 10 then 30
  else 31

/-- Civil (full year, zero-based month, day-of-month) of a day number, as
read back by `Date.prototype.getFullYear/getMonth/getDate`. -/
def daysToCivil (z : Int) : Int × Int × Int :=
  let z2 := z + 719468
  let era := z2 / 146097
  let doe := z2 - era * 146097
  let yoe := (doe - doe / 1460 + doe / 36524 - doe / 146096) / 365
  let doy := doe - (365 * yoe + yoe / 4 - yoe / 100)
  let mp := (5 * doy + 2) / 153
  let d := doy - (153 * mp + 2) / 5 + 1
  let m := if mp < 10 then mp + 3 else mp - 9
  (if m ≤ 2 then yoe + era * 400 + 1 else yoe + era * 400, m - 1, d)

theorem yoe_eq_nat (doe : Int) (h0 : 0 ≤ doe) :
    (doe - doe / 1460 + doe / 36524 - doe / 146096) / 365 =
      ((doe.toNat - doe.toNat / 1460 + doe.toNat / 36524 - doe.toNat / 146096) / 365 : Nat) := by
  omega

theorem yoe_facts_int (doe yoe L : Int) (h0 : 0 ≤ doe) (h1 : doe ≤ 146096)
    (hy : yoe = (doe - doe / 1460 + doe / 36524 - doe / 146096) / 365)
    (hL : L = if (((yoe + 1) % 4 = 0 ∧ (yoe + 1) % 100 ≠ 0) ∨ (yoe + 1) % 400 = 0) then 1 else 0) :
    0 ≤ yoe ∧ yoe ≤ 399 ∧
      365 * yoe + yoe / 4 - yoe / 100 ≤ doe ∧
      doe ≤ 365 * yoe + yoe / 4 - yoe / 100 + 364 + L := by
  obtain ⟨hA, hB, hC⟩ := g_doe doe.toNat (by omega)
  have hw : yoe = ((fN doe.toNat / 365 : Nat) : Int) := by
    rw [hy]; unfold fN; exact yoe_eq_nat doe h0
  unfold fN at hw hA hB hC
  unfold sN at hB hC
  unfold lN at hC
  clear hy
  subst hw
  refine ⟨?_, ?_, ?_, ?_⟩
  · clear hL hA hB hC; omega
  · clear hL hB hC; omega
  · clear hL hA hC; omega
  · clear hA hB
    split at hC <;> split at hL <;> omega

theorem ite_leap (a L : Int)
    (h : L = if ((a % 4 = 0 ∧ a % 100 ≠ 0) ∨ a % 400 = 0) then 1 else 0) :
    (if isLeap a then (29 : Int) else 28) = 28 + L := by
  unfold isLeap
  simp only [decide_eq_true_eq]
  split at h <;> split <;> omega

theorem isLeap_shift (a k : Int) : isLeap (a + 400 * k) = isLeap a := by
  unfold isLeap
  rw [decide_eq_decide]
  constructor <;> intro h <;> omega

/-- Round trip, first direction, over explicit variables: the civil triple
computed by `daysToCivil` is a valid date and maps back to the same day
number. -/
theorem civil_core (z era doe yoe doy mp d m y L : Int)
    (hera : era = (z + 719468) / 146097)
    (hdoe : doe = z + 719468 - era * 146097)
    (hyoe : yoe = (doe - doe / 1460 + doe / 36524 - doe / 146096) / 365)
    (hL : L = if (((yoe + 1) % 4 = 0 ∧ (yoe + 1) % 100 ≠ 0) ∨ (yoe + 1) % 400 = 0) then 1 else 0)
    (hdoy : doy = doe - (365 * yoe + yoe / 4 - yoe / 100))
    (hmp : mp = (5 * doy + 2) / 153)
    (hd : d = doy - (153 * mp + 2) / 5 + 1)
    (hm : m = (if mp < 10 then mp + 3 else mp - 9) - 1)
    (hy : y = if (if mp < 10 then mp + 3 else mp - 9) ≤ 2 then yoe + era * 400 + 1 else yoe + era * 400) :
    0 ≤ m ∧ m ≤ 11 ∧ 1 ≤ d ∧ d ≤ daysInMonth y m ∧ jsMakeDay y m d = z := by
  obtain ⟨hy0, hy1, hlo, hhi⟩ := yoe_facts_int doe yoe L (by omega) (by omega) hyoe hL
  have hL0 : 0 ≤ L := by split at hL <;> omega
  have hL1 : L ≤ 1 := by split at hL <;> omega
  have hdoy0 : 0 ≤ doy := by omega
  have hdoy1 : doy ≤ 364 + L := by omega
  have hmp0 : 0 ≤ mp := by omega
  have hmp11 : mp ≤ 11 := by omega
  clear hera hyoe
  interval_cases mp <;>
    (norm_num at hm hy
     subst hm
     subst hy
     refine ⟨by norm_num, by norm_num, by omega, ?_, ?_⟩
     · simp only [daysInMonth]
       first
       | (split_ifs <;> omega)
       | (simp only [if_true]
          rw [show yoe + era * 400 + 1 = yoe + 1 + 400 * era by ring, isLeap_shift,
              ite_leap (yoe + 1) L hL]
          omega)
     · simp only [jsMakeDay, daysFromCivil]
       split_ifs <;> omega)

/-- Round trip, first direction: `Date` components are a valid civil date and
`MakeDay` on them restores the day number. -/
theorem makeDay_daysToCivil (z y m d : Int) (h : daysToCivil z = (y, m, d)) :
    0 ≤ m ∧ m ≤ 11 ∧ 1 ≤ d ∧ d ≤ daysInMonth y m ∧ jsMakeDay y m d = z := by
  simp only [daysToCivil, Prod.mk.injEq] at h
  obtain ⟨h1, h2, h3⟩ := h
  exact civil_core z _ _ _ _ _ _ m y _ rfl rfl rfl rfl rfl rfl h3.symm h2.symm h1.symm

theorem yoe_recover_int (a b : Nat) (L doe : Int)
    (ha : a ≤ 399)
    (hL : L = if ((((a : Int) + 1) % 4 = 0 ∧ ((a : Int) + 1) % 100 ≠ 0) ∨ ((a : Int) + 1) % 400 = 0)
      then 1 else 0)
    (hb : (b : Int) ≤ 364 + L)
    (hdoe : doe = 365 * (a : Int) + (a : Int) / 4 - (a : Int) / 100 + (b : Int)) :
    (doe - doe / 1460 + doe / 36524 - doe / 146096) / 365 = (a : Int) := by
  have hlNb : b ≤ 364 + lN a := by
    unfold lN
    split at hL <;> split <;> omega
  have hres := yoe_recover a b ha hlNb
  unfold fN sN at hres
  have hN : doe = ((365 * a + a / 4 - a / 100 + b : Nat) : Int) := by
    clear hL hb hlNb hres ha
    omega
  rw [hN, yoe_eq_nat _ (Int.natCast_nonneg _)]
  simp only [Int.toNat_natCast]
  exact_mod_cast hres

/-- Round trip, second direction, over explicit year-of-era components. -/
theorem daysToCivil_of_components (z era yoe doy mp d L yOut mOut : Int)
    (hy0 : 0 ≤ yoe) (hy1 : yoe ≤ 399)
    (hL : L = if (((yoe + 1) % 4 = 0 ∧ (yoe + 1) % 100 ≠ 0) ∨ (yoe + 1) % 400 = 0) then 1 else 0)
    (hd0 : 0 ≤ doy) (hd1 : doy ≤ 364 + L)
    (hmp : mp = (5 * doy + 2) / 153)
    (hd : d = doy - (153 * mp + 2) / 5 + 1)
    (hz : z = era * 146097 + (365 * yoe + yoe / 4 - yoe / 100 + doy) - 719468)
    (hyOut : yOut = if (if mp < 10 then mp + 3 else mp - 9) ≤ 2 then yoe + era * 400 + 1 else yoe + era * 400)
    (hmOut : mOut = (if mp < 10 then mp + 3 else mp - 9) - 1) :
    daysToCivil z = (yOut, mOut, d) := by
  obtain ⟨a, rfl⟩ : ∃ a : Nat, (a : Int) = yoe := ⟨yoe.toNat, Int.toNat_of_nonneg hy0⟩
  obtain ⟨b, rfl⟩ : ∃ b : Nat, (b : Int) = doy := ⟨doy.toNat, Int.toNat_of_nonneg hd0⟩
  have hL0 : 0 ≤ L := by split at hL <;> omega
  have hL1 : L ≤ 1 := by split at hL <;> omega
  have hera : (z + 719468) / 146097 = era := by omega
  simp only [daysToCivil]
  rw [hera]
  have hdoe : z + 719468 - era * 146097 =
      365 * (a : Int) + (a : Int) / 4 - (a : Int) / 100 + (b : Int) := by omega
  rw [hdoe]
  rw [yoe_recover_int a b L _ (by omega) hL hd1 rfl]
  rw [show 365 * (a : Int) + (a : Int) / 4 - (a : Int) / 100 + (b : Int) -
      (365 * (a : Int) + (a : Int) / 4 - (a : Int) / 100) = (b : Int) by ring]
  rw [← hmp, ← hd, ← hyOut, ← hmOut]

/-- Round trip, second direction: on a valid civil date, `daysToCivil`
inverts `jsMakeDay`. -/
theorem daysToCivil_makeDay (y m d : Int) (hm0 : 0 ≤ m) (hm1 : m ≤ 11)
    (hd0 : 1 ≤ d) (hd1 : d ≤ daysInMonth y m) :
    daysToCivil (jsMakeDay y m d) = (y, m, d) := by
  simp only [daysInMonth] at hd1
  interval_cases m
  · norm_num at hd1
    exact daysToCivil_of_components (jsMakeDay y 0 d) ((y - 1) / 400) (y - 1 - (y - 1) / 400 * 400)
      ((153 * 10 + 2) / 5 + d - 1) 10 d _ y 0
      (by omega) (by omega) rfl (by omega) (by split <;> omega) (by omega) (by omega)
      (by simp only [jsMakeDay, daysFromCivil]; split_ifs <;> omega)
      (by norm_num) (by norm_num)
  · norm_num at hd1
    have hiso : isLeap y = isLeap (y - 1 - (y - 1) / 400 * 400 + 1) := by
      conv_lhs => rw [show y = (y - 1 - (y - 1) / 400 * 400 + 1) + 400 * ((y - 1) / 400) by ring]
      rw [isLeap_shift]
    rw [hiso] at hd1
    unfold isLeap at hd1
    simp only [decide_eq_true_eq] at hd1
    exact daysToCivil_of_components (jsMakeDay y 1 d) ((y - 1) / 400) (y - 1 - (y - 1) / 400 * 400)
      ((153 * 11 + 2) / 5 + d - 1) 11 d _ y 1
      (by omega) (by omega) rfl (by omega) (by split at hd1 <;> split <;> omega)
      (by split at hd1 <;> omega) (by omega)
      (by simp only [jsMakeDay, daysFromCivil]; split_ifs <;> omega)
      (by norm_num) (by norm_num)
  · norm_num at hd1
    exact daysToCivil_of_components (jsMakeDay y 2 d) ((y) / 400) (y - (y) / 400 * 400)
      ((153 * 0 + 2) / 5 + d - 1) 0 d _ y 2
      (by omega) (by omega) rfl (by omega) (by split <;> omega) (by omega) (by omega)
      (by simp only [jsMakeDay, daysFromCivil]; split_ifs <;> omega)
      (by norm_num) (by norm_num)
  · norm_num at hd1
    exact daysToCivil_of_components (jsMakeDay y 3 d) ((y) / 400) (y - (y) / 400 * 400)
      ((153 * 1 + 2) / 5 + d - 1) 1 d _ y 3
      (by omega) (by omega) rfl (by omega) (by split <;> omega) (by omega) (by omega)
      (by simp only [jsMakeDay, daysFromCivil]; split_ifs <;> omega)
      (by norm_num) (by norm_num)
  · norm_num at hd1
    exact daysToCivil_of_components (jsMakeDay y 4 d) ((y) / 400) (y - (y) / 400 * 400)
      ((153 * 2 + 2) / 5 + d - 1) 2 d _ y 4
      (by omega) (by omega) rfl (by omega) (by split <;> omega) (by omega) (by omega)
      (by simp only [jsMakeDay, daysFromCivil]; split_ifs <;> omega)
      (by norm_num) (by norm_num)
  · norm_num at hd1
    exact daysToCivil_of_components (jsMakeDay y 5 d) ((y) / 400) (y - (y) / 400 * 400)
      ((153 * 3 + 2) / 5 + d - 1) 3 d _ y 5
      (by omega) (by omega) rfl (by omega) (by split <;> omega) (by omega) (by omega)
      (by simp only [jsMakeDay, daysFromCivil]; split_ifs <;> omega)
      (by norm_num) (by norm_num)
  · norm_num at hd1
    exact daysToCivil_of_components (jsMakeDay y 6 d) ((y) / 400) (y - (y) / 400 * 400)
      ((153 * 4 + 2) / 5 + d - 1) 4 d _ y 6
      (by omega) (by omega) rfl (by omega) (by split <;> omega) (by omega) (by omega)
      (by simp only [jsMakeDay, daysFromCivil]; split_ifs <;> omega)
      (by norm_num) (by norm_num)
  · norm_num at hd1
    exact daysToCivil_of_components (jsMakeDay y 7 d) ((y) / 400) (y - (y) / 400 * 400)
      ((153 * 5 + 2) / 5 + d - 1) 5 d _ y 7
      (by omega) (by omega) rfl (by omega) (by split <;> omega) (by omega) (by omega)
      (by simp only [jsMakeDay, daysFromCivil]; split_ifs <;> omega)
      (by norm_num) (by norm_num)
  · norm_num at hd1
    exact daysToCivil_of_components (jsMakeDay y 8 d) ((y) / 400) (y - (y) / 400 * 400)
      ((153 * 6 + 2) / 5 + d - 1) 6 d _ y 8
      (by omega) (by omega) rfl (by omega) (by split <;> omega) (by omega) (by omega)
      (by simp only [jsMakeDay, daysFromCivil]; split_ifs <;> omega)
      (by norm_num) (by norm_num)
  · norm_num at hd1
    exact daysToCivil_of_components (jsMakeDay y 9 d) ((y) / 400) (y - (y) / 400 * 400)
      ((153 * 7 + 2) / 5 + d - 1) 7 d _ y 9
      (by omega) (by omega) rfl (by omega) (by split <;> omega) (by omega) (by omega)
      (by simp only [jsMakeDay, daysFromCivil]; split_ifs <;> omega)
      (by norm_num) (by norm_num)
  · norm_num at hd1
    exact daysToCivil_of_components (jsMakeDay y 10 d) ((y) / 400) (y - (y) / 400 * 400)
      ((153 * 8 + 2) / 5 + d - 1) 8 d _ y 10
      (by omega) (by omega) rfl (by omega) (by split <;> omega) (by omega) (by omega)
      (by simp only [jsMakeDay, daysFromCivil]; split_ifs <;> omega)
      (by norm_num) (by norm_num)
  · norm_num at hd1
    exact daysToCivil_of_components (jsMakeDay y 11 d) ((y) / 400) (y - (y) / 400 * 400)
      ((153 * 9 + 2) / 5 + d - 1) 9 d _ y 11
      (by omega) (by omega) rfl (by omega) (by split <;> omega) (by omega) (by omega)
      (by simp only [jsMakeDay, daysFromCivil]; split_ifs <;> omega)
      (by norm_num) (by norm_num)

theorem makeDay_year_lt (y m d : Int) (hm0 : 0 ≤ m) (hm1 : m ≤ 11) :
    jsMakeDay y m d < jsMakeDay (y + 1) m d := by
  simp only [jsMakeDay, daysFromCivil]
  split_ifs <;> omega

/-!
Section 2: the `Date` accessors used by weeklyShows.js, and derived facts.
-/

/-- `Date.prototype.getFullYear` (local). -/
def jsGetFullYear (z : Int) : Int := (daysToCivil z).1

/-- `Date.prototype.getMonth` (local, zero-based). -/
def jsGetMonth (z : Int) : Int := (daysToCivil z).2.1

/-- `Date.prototype.getDate` (local, day of month). -/
def jsGetDate (z : Int) : Int := (daysToCivil z).2.2

/-- `Date.prototype.getDay` (local): 0 = Sunday .. 6 = Saturday.  Day number
0 (1970-01-01) was a Thursday, hence the offset 4. -/
def jsGetDay (z : Int) : Int := (z + 4) % 7

/-- `Date.prototype.setDate n`: keeps the year and month components and
re-runs `MakeDay` with the new day of month (ECMAScript semantics). -/
def jsSetDate (z n : Int) : Int := jsMakeDay (jsGetFullYear z) (jsGetMonth z) n

/-- `new Date(y, m, d)` (at local midnight): ECMAScript maps two-digit years
0..99 to 1900 + y before `MakeDay`. -/
def jsDateCtor (y m d : Int) : Int :=
  jsMakeDay (if 0 ≤ y ∧ y ≤ 99 then y + 1900 else y) m d

theorem makeDay_day_add (y m d k : Int) : jsMakeDay y m (d + k) = jsMakeDay y m d + k := by
  simp only [jsMakeDay, daysFromCivil]
  split_ifs <;> ring

theorem daysToCivil_eta (z : Int) :
    daysToCivil z = (jsGetFullYear z, jsGetMonth z, jsGetDate z) := rfl

theorem makeDay_getComponents (z : Int) :
    jsMakeDay (jsGetFullYear z) (jsGetMonth z) (jsGetDate z) = z :=
  (makeDay_daysToCivil z _ _ _ (daysToCivil_eta z)).2.2.2.2

theorem daysToCivil_valid (z : Int) :
    0 ≤ jsGetMonth z ∧ jsGetMonth z ≤ 11 ∧ 1 ≤ jsGetDate z ∧
      jsGetDate z ≤ daysInMonth (jsGetFullYear z) (jsGetMonth z) :=
  ⟨(makeDay_daysToCivil z _ _ _ (daysToCivil_eta z)).1,
   (makeDay_daysToCivil z _ _ _ (daysToCivil_eta z)).2.1,
   (makeDay_daysToCivil z _ _ _ (daysToCivil_eta z)).2.2.1,
   (makeDay_daysToCivil z _ _ _ (daysToCivil_eta z)).2.2.2.1⟩

theorem daysInMonth_le_31 (y m : Int) : daysInMonth y m ≤ 31 := by
  unfold daysInMonth
  split_ifs <;> omega

/-- Setting the day of month to the current one plus `k` moves the day
number by exactly `k`. -/
theorem setDate_add (z k : Int) : jsSetDate z (jsGetDate z + k) = z + k := by
  unfold jsSetDate
  rw [makeDay_day_add, makeDay_getComponents]

theorem makeDay_year_strictMono (m d : Int) (hm0 : 0 ≤ m) (hm1 : m ≤ 11) :
    StrictMono (fun y => jsMakeDay y m d) :=
  strictMono_int_of_lt_succ (fun y => makeDay_year_lt y m d hm0 hm1)

/-- The rollover check of `parseShowDate`: re-deriving month and day from the
constructed date gives the originals back exactly when the month is a real
zero-based month and the day exists in that month of the given year. -/
theorem dateCheck_iff (Y mm dd : Int) :
    (jsGetMonth (jsMakeDay Y mm dd) = mm ∧ jsGetDate (jsMakeDay Y mm dd) = dd) ↔
      (0 ≤ mm ∧ mm ≤ 11 ∧ 1 ≤ dd ∧ dd ≤ daysInMonth Y mm) := by
  constructor
  · rintro ⟨h1, h2⟩
    obtain ⟨v1, v2, v3, v4, v5⟩ :=
      makeDay_daysToCivil (jsMakeDay Y mm dd) _ _ _ (daysToCivil_eta _)
    rw [h1] at v1 v2
    rw [h2] at v3
    rw [h1, h2] at v4
    rw [h1, h2] at v5
    have hyeq : jsGetFullYear (jsMakeDay Y mm dd) = Y :=
      (makeDay_year_strictMono mm dd (by omega) (by omega)).injective v5
    rw [hyeq] at v4
    exact ⟨v1, v2, v3, v4⟩
  · rintro ⟨h1, h2, h3, h4⟩
    have h := daysToCivil_makeDay Y mm dd h1 h2 h3 h4
    unfold jsGetMonth jsGetDate
    rw [h]
    exact ⟨rfl, rfl⟩

/-!
Section 3: characters, strings, decimal printing (JavaScript `String(n)` /
template literals) and `parseInt`.
-/

/-- The characters matched by the regular-expression class `\s` (ECMAScript
WhiteSpace and LineTerminator), also used by `String.prototype.trim`. -/
def jsWhitespaceChar (c : Char) : Bool :=
  decide (c.toNat = 9 ∨ c.toNat = 10 ∨ c.toNat = 11 ∨ c.toNat = 12 ∨ c.toNat = 13 ∨
    c.toNat = 32 ∨ c.toNat = 160 ∨ c.toNat = 0x1680 ∨
    (0x2000 ≤ c.toNat ∧ c.toNat ≤ 0x200A) ∨ c.toNat = 0x2028 ∨ c.toNat = 0x2029 ∨
    c.toNat = 0x202F ∨ c.toNat = 0x205F ∨ c.toNat = 0x3000 ∨ c.toNat = 0xFEFF)

/-- `String.prototype.split` with a one-character separator (as in
`dateStr.split("/")`): the empty string yields one empty segment, and
separators delimit possibly empty segments. -/
def splitOnChar (sep : Char) : List Char → List (List Char)
  | [] => [[]]
  | c :: cs =>
    if c = sep then [] :: splitOnChar sep cs
    else
      match splitOnChar sep cs with
      | [] => [[c]]
      | seg :: rest => (c :: seg) :: rest

/-- Numeric value of a list of decimal digit characters. -/
def digitsToNat (l : List Char) : Nat :=
  l.foldl (fun acc c => 10 * acc + (c.toNat - 48)) 0

/-- ECMAScript `parseInt(str, 10)`: skip leading whitespace, read an optional
sign, then the longest prefix of decimal digits; `none` models `NaN` (no
digits at all).  Trailing garbage after the digits is ignored. -/
def jsParseInt (l : List Char) : Option Int :=
  match l.dropWhile jsWhitespaceChar with
  | [] => none
  | c :: rest =>
    if c = '-' then
      let digs := rest.takeWhile Char.isDigit
      if digs = [] then none else some (-(digitsToNat digs : Int))
    else if c = '+' then
      let digs := rest.takeWhile Char.isDigit
      if digs = [] then none else some (digitsToNat digs)
    else
      let digs := (c :: rest).takeWhile Char.isDigit
      if digs = [] then none else some (digitsToNat digs)

/-- Decimal digits of `n`, most significant first, with fuel (JavaScript
`String(n)` for a natural number). -/
def natDecAux : Nat → Nat → List Char
  | 0, _ => []
  | fuel + 1, n =>
    if n < 10 then [Nat.digitChar n]
    else natDecAux fuel (n / 10) ++ [Nat.digitChar (n % 10)]

/-- JavaScript `String(n)` for a natural number. -/
def natDecChars (n : Nat) : List Char := natDecAux (n + 1) n

/-- JavaScript `String(i)` for an integer. -/
def intDecChars (i : Int) : List Char :=
  if i < 0 then '-' :: natDecChars (-i).toNat else natDecChars i.toNat

theorem digitsToNat_append (xs : List Char) (c : Char) :
    digitsToNat (xs ++ [c]) = 10 * digitsToNat xs + (c.toNat - 48) := by
  unfold digitsToNat
  rw [List.foldl_append]
  rfl

theorem digitChar_toNat : ∀ n : Nat, n < 10 → (Nat.digitChar n).toNat = 48 + n := by decide

theorem digitChar_isDigit : ∀ n : Nat, n < 10 → (Nat.digitChar n).isDigit = true := by decide

theorem natDecAux_parse (fuel n : Nat) (h : n < fuel) : digitsToNat (natDecAux fuel n) = n := by
  induction fuel generalizing n with
  | zero => omega
  | succ f ih =>
    simp only [natDecAux]
    split
    · rename_i hlt
      unfold digitsToNat
      simp only [List.foldl]
      rw [digitChar_toNat n hlt]
      omega
    · rw [digitsToNat_append, ih (n / 10) (by omega)]
      rw [digitChar_toNat (n % 10) (by omega)]
      omega

theorem natDecChars_parse (n : Nat) : digitsToNat (natDecChars n) = n :=
  natDecAux_parse _ _ (by omega)

theorem natDecChars_inj (a b : Nat) (h : natDecChars a = natDecChars b) : a = b := by
  have ha := natDecChars_parse a
  rw [h, natDecChars_parse b] at ha
  omega

theorem natDecAux_digits (fuel n : Nat) (h : n < fuel) :
    ∀ c ∈ natDecAux fuel n, c.isDigit = true := by
  induction fuel generalizing n with
  | zero => omega
  | succ f ih =>
    simp only [natDecAux]
    split
    · rename_i hlt
      intro c hc
      rw [List.mem_singleton] at hc
      subst hc
      exact digitChar_isDigit n hlt
    · intro c hc
      rw [List.mem_append] at hc
      rcases hc with hc | hc
      · exact ih (n / 10) (by omega) c hc
      · rw [List.mem_singleton] at hc
        subst hc
        exact digitChar_isDigit (n % 10) (by omega)

theorem natDecChars_digits (n : Nat) : ∀ c ∈ natDecChars n, c.isDigit = true :=
  natDecAux_digits _ _ (by omega)

theorem natDecChars_ne_nil (n : Nat) : natDecChars n ≠ [] := by
  unfold natDecChars natDecAux
  split <;> simp

theorem intDec_nonneg (i : Int) (h : 0 ≤ i) : intDecChars i = natDecChars i.toNat := by
  unfold intDecChars
  rw [if_neg (by omega)]

theorem intDecChars_inj (a b : Int) (h : intDecChars a = intDecChars b) : a = b := by
  have hmem : ∀ n : Nat, ∀ l : List Char, natDecChars n = '-' :: l → False := by
    intro n l hn
    have hd := natDecChars_digits n
    rw [hn] at hd
    have := hd '-' (List.mem_cons_self _ _)
    exact absurd this (by decide)
  unfold intDecChars at h
  split at h <;> split at h
  · rw [List.cons.injEq] at h
    have := natDecChars_inj _ _ h.2
    omega
  · exact absurd h.symm (hmem _ _)
  · exact absurd h (hmem _ _)
  · have := natDecChars_inj _ _ h
    omega

/-- `String(n).padStart(2, "0")`. -/
def padStart2 (l : List Char) : List Char := List.replicate (2 - l.length) '0' ++ l

set_option maxRecDepth 40000 in
theorem pad2_len : ∀ n : Nat, n < 100 → (padStart2 (natDecChars n)).length = 2 := by decide

set_option maxRecDepth 40000 in
theorem pad2_inj : ∀ a : Nat, a < 100 → ∀ b : Nat, b < 100 →
    padStart2 (natDecChars a) = padStart2 (natDecChars b) → a = b := by decide

/-- `toISODateString` of weeklyShows.js: the template literal
`year-month-day` with the month and day zero-padded to two characters, built
from the local calendar fields of the date. -/
def toISODateString (z : Int) : String :=
  String.mk (intDecChars (jsGetFullYear z) ++
    ('-' :: (padStart2 (intDecChars (jsGetMonth z + 1)) ++
      ('-' :: padStart2 (intDecChars (jsGetDate z))))))

theorem month_toNat_lt (z : Int) : (jsGetMonth z + 1).toNat < 100 := by
  have := daysToCivil_valid z
  omega

theorem date_toNat_lt (z : Int) : (jsGetDate z).toNat < 100 := by
  have h := daysToCivil_valid z
  have h31 := daysInMonth_le_31 (jsGetFullYear z) (jsGetMonth z)
  omega

theorem pad2_month_len (z : Int) :
    (padStart2 (intDecChars (jsGetMonth z + 1))).length = 2 := by
  rw [intDec_nonneg _ (by have := daysToCivil_valid z; omega)]
  exact pad2_len _ (month_toNat_lt z)

theorem pad2_date_len (z : Int) :
    (padStart2 (intDecChars (jsGetDate z))).length = 2 := by
  rw [intDec_nonneg _ (by have := daysToCivil_valid z; omega)]
  exact pad2_len _ (date_toNat_lt z)

/-- The ISO date string determines the day number: `toISODateString` is
injective. -/
theorem toISODateString_inj (a b : Int) (h : toISODateString a = toISODateString b) : a = b := by
  unfold toISODateString at h
  replace h : intDecChars (jsGetFullYear a) ++
      ('-' :: (padStart2 (intDecChars (jsGetMonth a + 1)) ++
        ('-' :: padStart2 (intDecChars (jsGetDate a))))) =
      intDecChars (jsGetFullYear b) ++
      ('-' :: (padStart2 (intDecChars (jsGetMonth b + 1)) ++
        ('-' :: padStart2 (intDecChars (jsGetDate b))))) := congrArg String.data h
  have hlen : ('-' :: (padStart2 (intDecChars (jsGetMonth a + 1)) ++
      ('-' :: padStart2 (intDecChars (jsGetDate a))))).length =
      ('-' :: (padStart2 (intDecChars (jsGetMonth b + 1)) ++
      ('-' :: padStart2 (intDecChars (jsGetDate b))))).length := by
    simp only [List.length_cons, List.length_append]
    rw [pad2_month_len a, pad2_month_len b, pad2_date_len a, pad2_date_len b]
  obtain ⟨hy, hrest⟩ := List.append_inj' h hlen
  have hY : jsGetFullYear a = jsGetFullYear b := intDecChars_inj _ _ hy
  rw [List.cons.injEq] at hrest
  obtain ⟨hm, hrest2⟩ := List.append_inj hrest.2 (by rw [pad2_month_len a, pad2_month_len b])
  rw [List.cons.injEq] at hrest2
  have hd := hrest2.2
  have hMv : 0 ≤ jsGetMonth a + 1 := by have := daysToCivil_valid a; omega
  have hMv2 : 0 ≤ jsGetMonth b + 1 := by have := daysToCivil_valid b; omega
  have hDv : 0 ≤ jsGetDate a := by have := daysToCivil_valid a; omega
  have hDv2 : 0 ≤ jsGetDate b := by have := daysToCivil_valid b; omega
  rw [intDec_nonneg _ hMv, intDec_nonneg _ hMv2] at hm
  rw [intDec_nonneg _ hDv, intDec_nonneg _ hDv2] at hd
  have hM : jsGetMonth a = jsGetMonth b := by
    have := pad2_inj _ (month_toNat_lt a) _ (month_toNat_lt b) hm
    omega
  have hD : jsGetDate a = jsGetDate b := by
    have := pad2_inj _ (date_toNat_lt a) _ (date_toNat_lt b) hd
    omega
  calc a = jsMakeDay (jsGetFullYear a) (jsGetMonth a) (jsGetDate a) :=
        (makeDay_getComponents a).symm
    _ = jsMakeDay (jsGetFullYear b) (jsGetMonth b) (jsGetDate b) := by rw [hY, hM, hD]
    _ = b := makeDay_getComponents b

/-!
Section 4: JavaScript values, the artist-name normalizer and the matcher
(shared normalize module).
-/

/-- A JavaScript value, as received from noisy upstream sources. -/
inductive JVal where
  | jnull
  | jundef
  | jbool (b : Bool)
  | jnum (n : Int)
  | jstr (s : String)
  | jarr (elems : List JVal)
  | jobj (fields : List (String × JVal))

/-- JavaScript falsy values (among those representable here). -/
def isFalsy : JVal → Bool
  | JVal.jnull => true
  | JVal.jundef => true
  | JVal.jbool b => !b
  | JVal.jnum n => n == 0
  | JVal.jstr s => s == ""
  | _ => false

/-- Property access `v[k]`: `none` models the TypeError thrown on `null` and
`undefined`; an absent property reads as `undefined`; the primitive and
array values carry none of the properties read by this code. -/
def getField (v : JVal) (k : String) : Option JVal :=
  match v with
  | JVal.jnull => none
  | JVal.jundef => none
  | JVal.jobj fields =>
    match fields.lookup k with
    | some w => some w
    | none => some JVal.jundef
  | _ => some JVal.jundef

set_option maxHeartbeats 2000000 in
/-- The Unicode lowercase mapping of `String.prototype.toLowerCase` (Unicode
Default Case Conversion), as code-point pairs: every code point whose
lowercase differs from itself, except U+03A3 (handled by the Final_Sigma
context rule).  The single multi-character mapping is U+0130. -/
def lowerTable : List (Nat × List Nat) := [
    (65, [97]), (66, [98]), (67, [99]), (68, [100]), (69, [101]),
    (70, [102]), (71, [103]), (72, [104]), (73, [105]), (74, [106]),
    (75, [107]), (76, [108]), (77, [109]), (78, [110]), (79, [111]),
    (80, [112]), (81, [113]), (82, [114]), (83, [115]), (84, [116]),
    (85, [117]), (86, [118]), (87, [119]), (88, [120]), (89, [121]),
    (90, [122]), (192, [224]), (193, [225]), (194, [226]), (195, [227]),
    (196, [228]), (197, [229]), (198, [230]), (199, [231]), (200, [232]),
    (201, [233]), (202, [234]), (203, [235]), (204, [236]), (205, [237]),
    (206, [238]), (207, [239]), (208, [240]), (209, [241]), (210, [242]),
    (211, [243]), (212, [244]), (213, [245]), (214, [246]), (216, [248]),
    (217, [249]), (218, [250]), (219, [251]), (220, [252]), (221, [253]),
    (222, [254]), (256, [257]), (258, [259]), (260, [261]), (262, [263]),
    (264, [265]), (266, [267]), (268, [269]), (270, [271]), (272, [273]),
    (274, [275]), (276, [277]), (278, [279]), (280, [281]), (282, [283]),
    (284, [285]), (286, [287]), (288, [289]), (290, [291]), (292, [293]),
    (294, [295]), (296, [297]), (298, [299]), (300, [301]), (302, [303]),
    (304, [105, 775]), (306, [307]), (308, [309]), (310, [311]), (313, [314]),
    (315, [316]), (317, [318]), (319, [320]), (321, [322]), (323, [324]),
    (325, [326]), (327, [328]), (330, [331]), (332, [333]), (334, [335]),
    (336, [337]), (338, [339]), (340, [341]), (342, [343]), (344, [345]),
    (346, [347]), (348, [349]), (350, [351]), (352, [353]), (354, [355]),
    (356, [357]), (358, [359]), (360, [361]), (362, [363]), (364, [365]),
    (366, [367]), (368, [369]), (370, [371]), (372, [373]), (374, [375]),
    (376, [255]), (377, [378]), (379, [380]), (381, [382]), (385, [595]),
    (386, [387]), (388, [389]), (390, [596]), (391, [392]), (393, [598]),
    (394, [599]), (395, [396]), (398, [477]), (399, [601]), (400, [603]),
    (401, [402]), (403, [608]), (404, [611]), (406, [617]), (407, [616]),
    (408, [409]), (412, [623]), (413, [626]), (415, [629]), (416, [417]),
    (418, [419]), (420, [421]), (422, [640]), (423, [424]), (425, [643]),
    (428, [429]), (430, [648]), (431, [432]), (433, [650]), (434, [651]),
    (435, [436]), (437, [438]), (439, [658]), (440, [441]), (444, [445]),
    (452, [454]), (453, [454]), (455, [457]), (456, [457]), (458, [460]),
    (459, [460]), (461, [462]), (463, [464]), (465, [466]), (467, [468]),
    (469, [470]), (471, [472]), (473, [474]), (475, [476]), (478, [479]),
    (480, [481]), (482, [483]), (484, [485]), (486, [487]), (488, [489]),
    (490, [491]), (492, [493]), (494, [495]), (497, [499]), (498, [499]),
    (500, [501]), (502, [405]), (503, [447]), (504, [505]), (506, [507]),
    (508, [509]), (510, [511]), (512, [513]), (514, [515]), (516, [517]),
    (518, [519]), (520, [521]), (522, [523]), (524, [525]), (526, [527]),
    (528, [529]), (530, [531]), (532, [533]), (534, [535]), (536, [537]),
    (538, [539]), (540, [541]), (542, [543]), (544, [414]), (546, [547]),
    (548, [549]), (550, [551]), (552, [553]), (554, [555]), (556, [557]),
    (558, [559]), (560, [561]), (562, [563]), (570, [11365]), (571, [572]),
    (573, [410]), (574, [11366]), (577, [578]), (579, [384]), (580, [649]),
    (581, [652]), (582, [583]), (584, [585]), (586, [587]), (588, [589]),
    (590, [591]), (880, [881]), (882, [883]), (886, [887]), (895, [1011]),
    (902, [940]), (904, [941]), (905, [942]), (906, [943]), (908, [972]),
    (910, [973]), (911, [974]), (913, [945]), (914, [946]), (915, [947]),
    (916, [948]), (917, [949]), (918, [950]), (919, [951]), (920, [952]),
    (921, [953]), (922, [954]), (923, [955]), (924, [956]), (925, [957]),
    (926, [958]), (927, [959]), (928, [960]), (929, [961]), (932, [964]),
    (933, [965]), (934, [966]), (935, [967]), (936, [968]), (937, [969]),
    (938, [970]), (939, [971]), (975, [983]), (984, [985]), (986, [987]),
    (988, [989]), (990, [991]), (992, [993]), (994, [995]), (996, [997]),
    (998, [999]), (1000, [1001]), (1002, [1003]), (1004, [1005]), (1006, [1007]),
    (1012, [952]), (1015, [1016]), (1017, [1010]), (1018, [1019]), (1021, [891]),
    (1022, [892]), (1023, [893]), (1024, [1104]), (1025, [1105]), (1026, [1106]),
    (1027, [1107]), (1028, [1108]), (1029, [1109]), (1030, [1110]), (1031, [1111]),
    (1032, [1112]), (1033, [1113]), (1034, [1114]), (1035, [1115]), (1036, [1116]),
    (1037, [1117]), (1038, [1118]), (1039, [1119]), (1040, [1072]), (1041, [1073]),
    (1042, [1074]), (1043, [1075]), (1044, [1076]), (1045, [1077]), (1046, [1078]),
    (1047, [1079]), (1048, [1080]), (1049, [1081]), (1050, [1082]), (1051, [1083]),
    (1052, [1084]), (1053, [1085]), (1054, [1086]), (1055, [1087]), (1056, [1088]),
    (1057, [1089]), (1058, [1090]), (1059, [1091]), (1060, [1092]), (1061, [1093]),
    (1062, [1094]), (1063, [1095]), (1064, [1096]), (1065, [1097]), (1066, [1098]),
    (1067, [1099]), (1068, [1100]), (1069, [1101]), (1070, [1102]), (1071, [1103]),
    (1120, [1121]), (1122, [1123]), (1124, [1125]), (1126, [1127]), (1128, [1129]),
    (1130, [1131]), (1132, [1133]), (1134, [1135]), (1136, [1137]), (1138, [1139]),
    (1140, [1141]), (1142, [1143]), (1144, [1145]), (1146, [1147]), (1148, [1149]),
    (1150, [1151]), (1152, [1153]), (1162, [1163]), (1164, [1165]), (1166, [1167]),
    (1168, [1169]), (1170, [1171]), (1172, [1173]), (1174, [1175]), (1176, [1177]),
    (1178, [1179]), (1180, [1181]), (1182, [1183]), (1184, [1185]), (1186, [1187]),
    (1188, [1189]), (1190, [1191]), (1192, [1193]), (1194, [1195]), (1196, [1197]),
    (1198, [1199]), (1200, [1201]), (1202, [1203]), (1204, [1205]), (1206, [1207]),
    (1208, [1209]), (1210, [1211]), (1212, [1213]), (1214, [1215]), (1216, [1231]),
    (1217, [1218]), (1219, [1220]), (1221, [1222]), (1223, [1224]), (1225, [1226]),
    (1227, [1228]), (1229, [1230]), (1232, [1233]), (1234, [1235]), (1236, [1237]),
    (1238, [1239]), (1240, [1241]), (1242, [1243]), (1244, [1245]), (1246, [1247]),
    (1248, [1249]), (1250, [1251]), (1252, [1253]), (1254, [1255]), (1256, [1257]),
    (1258, [1259]), (1260, [1261]), (1262, [1263]), (1264, [1265]), (1266, [1267]),
    (1268, [1269]), (1270, [1271]), (1272, [1273]), (1274, [1275]), (1276, [1277]),
    (1278, [1279]), (1280, [1281]), (1282, [1283]), (1284, [1285]), (1286, [1287]),
    (1288, [1289]), (1290, [1291]), (1292, [1293]), (1294, [1295]), (1296, [1297]),
    (1298, [1299]), (1300, [1301]), (1302, [1303]), (1304, [1305]), (1306, [1307]),
    (1308, [1309]), (1310, [1311]), (1312, [1313]), (1314, [1315]), (1316, [1317]),
    (1318, [1319]), (1320, [1321]), (1322, [1323]), (1324, [1325]), (1326, [1327]),
    (1329, [1377]), (1330, [1378]), (1331, [1379]), (1332, [1380]), (1333, [1381]),
    (1334, [1382]), (1335, [1383]), (1336, [1384]), (1337, [1385]), (1338, [1386]),
    (1339, [1387]), (1340, [1388]), (1341, [1389]), (1342, [1390]), (1343, [1391]),
    (1344, [1392]), (1345, [1393]), (1346, [1394]), (1347, [1395]), (1348, [1396]),
    (1349, [1397]), (1350, [1398]), (1351, [1399]), (1352, [1400]), (1353, [1401]),
    (1354, [1402]), (1355, [1403]), (1356, [1404]), (1357, [1405]), (1358, [1406]),
    (1359, [1407]), (1360, [1408]), (1361, [1409]), (1362, [1410]), (1363, [1411]),
    (1364, [1412]), (1365, [1413]), (1366, [1414]), (4256, [11520]), (4257, [11521]),
    (4258, [11522]), (4259, [11523]), (4260, [11524]), (4261, [11525]), (4262, [11526]),
    (4263, [11527]), (4264, [11528]), (4265, [11529]), (4266, [11530]), (4267, [11531]),
    (4268, [11532]), (4269, [11533]), (4270, [11534]), (4271, [11535]), (4272, [11536]),
    (4273, [11537]), (4274, [11538]), (4275, [11539]), (4276, [11540]), (4277, [11541]),
    (4278, [11542]), (4279, [11543]), (4280, [11544]), (4281, [11545]), (4282, [11546]),
    (4283, [11547]), (4284, [11548]), (4285, [11549]), (4286, [11550]), (4287, [11551]),
    (4288, [11552]), (4289, [11553]), (4290, [11554]), (4291, [11555]), (4292, [11556]),
    (4293, [11557]), (4295, [11559]), (4301, [11565]), (5024, [43888]), (5025, [43889]),
    (5026, [43890]), (5027, [43891]), (5028, [43892]), (5029, [43893]), (5030, [43894]),
    (5031, [43895]), (5032, [43896]), (5033, [43897]), (5034, [43898]), (5035, [43899]),
    (5036, [43900]), (5037, [43901]), (5038, [43902]), (5039, [43903]), (5040, [43904]),
    (5041, [43905]), (5042, [43906]), (5043, [43907]), (5044, [43908]), (5045, [43909]),
    (5046, [43910]), (5047, [43911]), (5048, [43912]), (5049, [43913]), (5050, [43914]),
    (5051, [43915]), (5052, [43916]), (5053, [43917]), (5054, [43918]), (5055, [43919]),
    (5056, [43920]), (5057, [43921]), (5058, [43922]), (5059, [43923]), (5060, [43924]),
    (5061, [43925]), (5062, [43926]), (5063, [43927]), (5064, [43928]), (5065, [43929]),
    (5066, [43930]), (5067, [43931]), (5068, [43932]), (5069, [43933]), (5070, [43934]),
    (5071, [43935]), (5072, [43936]), (5073, [43937]), (5074, [43938]), (5075, [43939]),
    (5076, [43940]), (5077, [43941]), (5078, [43942]), (5079, [43943]), (5080, [43944]),
    (5081, [43945]), (5082, [43946]), (5083, [43947]), (5084, [43948]), (5085, [43949]),
    (5086, [43950]), (5087, [43951]), (5088, [43952]), (5089, [43953]), (5090, [43954]),
    (5091, [43955]), (5092, [43956]), (5093, [43957]), (5094, [43958]), (5095, [43959]),
    (5096, [43960]), (5097, [43961]), (5098, [43962]), (5099, [43963]), (5100, [43964]),
    (5101, [43965]), (5102, [43966]), (5103, [43967]), (5104, [5112]), (5105, [5113]),
    (5106, [5114]), (5107, [5115]), (5108, [5116]), (5109, [5117]), (7312, [4304]),
    (7313, [4305]), (7314, [4306]), (7315, [4307]), (7316, [4308]), (7317, [4309]),
    (7318, [4310]), (7319, [4311]), (7320, [4312]), (7321, [4313]), (7322, [4314]),
    (7323, [4315]), (7324, [4316]), (7325, [4317]), (7326, [4318]), (7327, [4319]),
    (7328, [4320]), (7329, [4321]), (7330, [4322]), (7331, [4323]), (7332, [4324]),
    (7333, [4325]), (7334, [4326]), (7335, [4327]), (7336, [4328]), (7337, [4329]),
    (7338, [4330]), (7339, [4331]), (7340, [4332]), (7341, [4333]), (7342, [4334]),
    (7343, [4335]), (7344, [4336]), (7345, [4337]), (7346, [4338]), (7347, [4339]),
    (7348, [4340]), (7349, [4341]), (7350, [4342]), (7351, [4343]), (7352, [4344]),
    (7353, [4345]), (7354, [4346]), (7357, [4349]), (7358, [4350]), (7359, [4351]),
    (7680, [7681]), (7682, [7683]), (7684, [7685]), (7686, [7687]), (7688, [7689]),
    (7690, [7691]), (7692, [7693]), (7694, [7695]), (7696, [7697]), (7698, [7699]),
    (7700, [7701]), (7702, [7703]), (7704, [7705]), (7706, [7707]), (7708, [7709]),
    (7710, [7711]), (7712, [7713]), (7714, [7715]), (7716, [7717]), (7718, [7719]),
    (7720, [7721]), (7722, [7723]), (7724, [7725]), (7726, [7727]), (7728, [7729]),
    (7730, [7731]), (7732, [7733]), (7734, [7735]), (7736, [7737]), (7738, [7739]),
    (7740, [7741]), (7742, [7743]), (7744, [7745]), (7746, [7747]), (7748, [7749]),
    (7750, [7751]), (7752, [7753]), (7754, [7755]), (7756, [7757]), (7758, [7759]),
    (7760, [7761]), (7762, [7763]), (7764, [7765]), (7766, [7767]), (7768, [7769]),
    (7770, [7771]), (7772, [7773]), (7774, [7775]), (7776, [7777]), (7778, [7779]),
    (7780, [7781]), (7782, [7783]), (7784, [7785]), (7786, [7787]), (7788, [7789]),
    (7790, [7791]), (7792, [7793]), (7794, [7795]), (7796, [7797]), (7798, [7799]),
    (7800, [7801]), (7802, [7803]), (7804, [7805]), (7806, [7807]), (7808, [7809]),
    (7810, [7811]), (7812, [7813]), (7814, [7815]), (7816, [7817]), (7818, [7819]),
    (7820, [7821]), (7822, [7823]), (7824, [7825]), (7826, [7827]), (7828, [7829]),
    (7838, [223]), (7840, [7841]), (7842, [7843]), (7844, [7845]), (7846, [7847]),
    (7848, [7849]), (7850, [7851]), (7852, [7853]), (7854, [7855]), (7856, [7857]),
    (7858, [7859]), (7860, [7861]), (7862, [7863]), (7864, [7865]), (7866, [7867]),
    (7868, [7869]), (7870, [7871]), (7872, [7873]), (7874, [7875]), (7876, [7877]),
    (7878, [7879]), (7880, [7881]), (7882, [7883]), (7884, [7885]), (7886, [7887]),
    (7888, [7889]), (7890, [7891]), (7892, [7893]), (7894, [7895]), (7896, [7897]),
    (7898, [7899]), (7900, [7901]), (7902, [7903]), (7904, [7905]), (7906, [7907]),
    (7908, [7909]), (7910, [7911]), (7912, [7913]), (7914, [7915]), (7916, [7917]),
    (7918, [7919]), (7920, [7921]), (7922, [7923]), (7924, [7925]), (7926, [7927]),
    (7928, [7929]), (7930, [7931]), (7932, [7933]), (7934, [7935]), (7944, [7936]),
    (7945, [7937]), (7946, [7938]), (7947, [7939]), (7948, [7940]), (7949, [7941]),
    (7950, [7942]), (7951, [7943]), (7960, [7952]), (7961, [7953]), (7962, [7954]),
    (7963, [7955]), (7964, [7956]), (7965, [7957]), (7976, [7968]), (7977, [7969]),
    (7978, [7970]), (7979, [7971]), (7980, [7972]), (7981, [7973]), (7982, [7974]),
    (7983, [7975]), (7992, [7984]), (7993, [7985]), (7994, [7986]), (7995, [7987]),
    (7996, [7988]), (7997, [7989]), (7998, [7990]), (7999, [7991]), (8008, [8000]),
    (8009, [8001]), (8010, [8002]), (8011, [8003]), (8012, [8004]), (8013, [8005]),
    (8025, [8017]), (8027, [8019]), (8029, [8021]), (8031, [8023]), (8040, [8032]),
    (8041, [8033]), (8042, [8034]), (8043, [8035]), (8044, [8036]), (8045, [8037]),
    (8046, [8038]), (8047, [8039]), (8072, [8064]), (8073, [8065]), (8074, [8066]),
    (8075, [8067]), (8076, [8068]), (8077, [8069]), (8078, [8070]), (8079, [8071]),
    (8088, [8080]), (8089, [8081]), (8090, [8082]), (8091, [8083]), (8092, [8084]),
    (8093, [8085]), (8094, [8086]), (8095, [8087]), (8104, [8096]), (8105, [8097]),
    (8106, [8098]), (8107, [8099]), (8108, [8100]), (8109, [8101]), (8110, [8102]),
    (8111, [8103]), (8120, [8112]), (8121, [8113]), (8122, [8048]), (8123, [8049]),
    (8124, [8115]), (8136, [8050]), (8137, [8051]), (8138, [8052]), (8139, [8053]),
    (8140, [8131]), (8152, [8144]), (8153, [8145]), (8154, [8054]), (8155, [8055]),
    (8168, [8160]), (8169, [8161]), (8170, [8058]), (8171, [8059]), (8172, [8165]),
    (8184, [8056]), (8185, [8057]), (8186, [8060]), (8187, [8061]), (8188, [8179]),
    (8486, [969]), (8490, [107]), (8491, [229]), (8498, [8526]), (8544, [8560]),
    (8545, [8561]), (8546, [8562]), (8547, [8563]), (8548, [8564]), (8549, [8565]),
    (8550, [8566]), (8551, [8567]), (8552, [8568]), (8553, [8569]), (8554, [8570]),
    (8555, [8571]), (8556, [8572]), (8557, [8573]), (8558, [8574]), (8559, [8575]),
    (8579, [8580]), (9398, [9424]), (9399, [9425]), (9400, [9426]), (9401, [9427]),
    (9402, [9428]), (9403, [9429]), (9404, [9430]), (9405, [9431]), (9406, [9432]),
    (9407, [9433]), (9408, [9434]), (9409, [9435]), (9410, [9436]), (9411, [9437]),
    (9412, [9438]), (9413, [9439]), (9414, [9440]), (9415, [9441]), (9416, [9442]),
    (9417, [9443]), (9418, [9444]), (9419, [9445]), (9420, [9446]), (9421, [9447]),
    (9422, [9448]), (9423, [9449]), (11264, [11312]), (11265, [11313]), (11266, [11314]),
    (11267, [11315]), (11268, [11316]), (11269, [11317]), (11270, [11318]), (11271, [11319]),
    (11272, [11320]), (11273, [11321]), (11274, [11322]), (11275, [11323]), (11276, [11324]),
    (11277, [11325]), (11278, [11326]), (11279, [11327]), (11280, [11328]), (11281, [11329]),
    (11282, [11330]), (11283, [11331]), (11284, [11332]), (11285, [11333]), (11286, [11334]),
    (11287, [11335]), (11288, [11336]), (11289, [11337]), (11290, [11338]), (11291, [11339]),
    (11292, [11340]), (11293, [11341]), (11294, [11342]), (11295, [11343]), (11296, [11344]),
    (11297, [11345]), (11298, [11346]), (11299, [11347]), (11300, [11348]), (11301, [11349]),
    (11302, [11350]), (11303, [11351]), (11304, [11352]), (11305, [11353]), (11306, [11354]),
    (11307, [11355]), (11308, [11356]), (11309, [11357]), (11310, [11358]), (11311, [11359]),
    (11360, [11361]), (11362, [619]), (11363, [7549]), (11364, [637]), (11367, [11368]),
    (11369, [11370]), (11371, [11372]), (11373, [593]), (11374, [625]), (11375, [592]),
    (11376, [594]), (11378, [11379]), (11381, [11382]), (11390, [575]), (11391, [576]),
    (11392, [11393]), (11394, [11395]), (11396, [11397]), (11398, [11399]), (11400, [11401]),
    (11402, [11403]), (11404, [11405]), (11406, [11407]), (11408, [11409]), (11410, [11411]),
    (11412, [11413]), (11414, [11415]), (11416, [11417]), (11418, [11419]), (11420, [11421]),
    (11422, [11423]), (11424, [11425]), (11426, [11427]), (11428, [11429]), (11430, [11431]),
    (11432, [11433]), (11434, [11435]), (11436, [11437]), (11438, [11439]), (11440, [11441]),
    (11442, [11443]), (11444, [11445]), (11446, [11447]), (11448, [11449]), (11450, [11451]),
    (11452, [11453]), (11454, [11455]), (11456, [11457]), (11458, [11459]), (11460, [11461]),
    (11462, [11463]), (11464, [11465]), (11466, [11467]), (11468, [11469]), (11470, [11471]),
    (11472, [11473]), (11474, [11475]), (11476, [11477]), (11478, [11479]), (11480, [11481]),
    (11482, [11483]), (11484, [11485]), (11486, [11487]), (11488, [11489]), (11490, [11491]),
    (11499, [11500]), (11501, [11502]), (11506, [11507]), (42560, [42561]), (42562, [42563]),
    (42564, [42565]), (42566, [42567]), (42568, [42569]), (42570, [42571]), (42572, [42573]),
    (42574, [42575]), (42576, [42577]), (42578, [42579]), (42580, [42581]), (42582, [42583]),
    (42584, [42585]), (42586, [42587]), (42588, [42589]), (42590, [42591]), (42592, [42593]),
    (42594, [42595]), (42596, [42597]), (42598, [42599]), (42600, [42601]), (42602, [42603]),
    (42604, [42605]), (42624, [42625]), (42626, [42627]), (42628, [42629]), (42630, [42631]),
    (42632, [42633]), (42634, [42635]), (42636, [42637]), (42638, [42639]), (42640, [42641]),
    (42642, [42643]), (42644, [42645]), (42646, [42647]), (42648, [42649]), (42650, [42651]),
    (42786, [42787]), (42788, [42789]), (42790, [42791]), (42792, [42793]), (42794, [42795]),
    (42796, [42797]), (42798, [42799]), (42802, [42803]), (42804, [42805]), (42806, [42807]),
    (42808, [42809]), (42810, [42811]), (42812, [42813]), (42814, [42815]), (42816, [42817]),
    (42818, [42819]), (42820, [42821]), (42822, [42823]), (42824, [42825]), (42826, [42827]),
    (42828, [42829]), (42830, [42831]), (42832, [42833]), (42834, [42835]), (42836, [42837]),
    (42838, [42839]), (42840, [42841]), (42842, [42843]), (42844, [42845]), (42846, [42847]),
    (42848, [42849]), (42850, [42851]), (42852, [42853]), (42854, [42855]), (42856, [42857]),
    (42858, [42859]), (42860, [42861]), (42862, [42863]), (42873, [42874]), (42875, [42876]),
    (42877, [7545]), (42878, [42879]), (42880, [42881]), (42882, [42883]), (42884, [42885]),
    (42886, [42887]), (42891, [42892]), (42893, [613]), (42896, [42897]), (42898, [42899]),
    (42902, [42903]), (42904, [42905]), (42906, [42907]), (42908, [42909]), (42910, [42911]),
    (42912, [42913]), (42914, [42915]), (42916, [42917]), (42918, [42919]), (42920, [42921]),
    (42922, [614]), (42923, [604]), (42924, [609]), (42925, [620]), (42926, [618]),
    (42928, [670]), (42929, [647]), (42930, [669]), (42931, [43859]), (42932, [42933]),
    (42934, [42935]), (42936, [42937]), (42938, [42939]), (42940, [42941]), (42942, [42943]),
    (42944, [42945]), (42946, [42947]), (42948, [42900]), (42949, [642]), (42950, [7566]),
    (42951, [42952]), (42953, [42954]), (42960, [42961]), (42966, [42967]), (42968, [42969]),
    (42997, [42998]), (65313, [65345]), (65314, [65346]), (65315, [65347]), (65316, [65348]),
    (65317, [65349]), (65318, [65350]), (65319, [65351]), (65320, [65352]), (65321, [65353]),
    (65322, [65354]), (65323, [65355]), (65324, [65356]), (65325, [65357]), (65326, [65358]),
    (65327, [65359]), (65328, [65360]), (65329, [65361]), (65330, [65362]), (65331, [65363]),
    (65332, [65364]), (65333, [65365]), (65334, [65366]), (65335, [65367]), (65336, [65368]),
    (65337, [65369]), (65338, [65370]), (66560, [66600]), (66561, [66601]), (66562, [66602]),
    (66563, [66603]), (66564, [66604]), (66565, [66605]), (66566, [66606]), (66567, [66607]),
    (66568, [66608]), (66569, [66609]), (66570, [66610]), (66571, [66611]), (66572, [66612]),
    (66573, [66613]), (66574, [66614]), (66575, [66615]), (66576, [66616]), (66577, [66617]),
    (66578, [66618]), (66579, [66619]), (66580, [66620]), (66581, [66621]), (66582, [66622]),
    (66583, [66623]), (66584, [66624]), (66585, [66625]), (66586, [66626]), (66587, [66627]),
    (66588, [66628]), (66589, [66629]), (66590, [66630]), (66591, [66631]), (66592, [66632]),
    (66593, [66633]), (66594, [66634]), (66595, [66635]), (66596, [66636]), (66597, [66637]),
    (66598, [66638]), (66599, [66639]), (66736, [66776]), (66737, [66777]), (66738, [66778]),
    (66739, [66779]), (66740, [66780]), (66741, [66781]), (66742, [66782]), (66743, [66783]),
    (66744, [66784]), (66745, [66785]), (66746, [66786]), (66747, [66787]), (66748, [66788]),
    (66749, [66789]), (66750, [66790]), (66751, [66791]), (66752, [66792]), (66753, [66793]),
    (66754, [66794]), (66755, [66795]), (66756, [66796]), (66757, [66797]), (66758, [66798]),
    (66759, [66799]), (66760, [66800]), (66761, [66801]), (66762, [66802]), (66763, [66803]),
    (66764, [66804]), (66765, [66805]), (66766, [66806]), (66767, [66807]), (66768, [66808]),
    (66769, [66809]), (66770, [66810]), (66771, [66811]), (66928, [66967]), (66929, [66968]),
    (66930, [66969]), (66931, [66970]), (66932, [66971]), (66933, [66972]), (66934, [66973]),
    (66935, [66974]), (66936, [66975]), (66937, [66976]), (66938, [66977]), (66940, [66979]),
    (66941, [66980]), (66942, [66981]), (66943, [66982]), (66944, [66983]), (66945, [66984]),
    (66946, [66985]), (66947, [66986]), (66948, [66987]), (66949, [66988]), (66950, [66989]),
    (66951, [66990]), (66952, [66991]), (66953, [66992]), (66954, [66993]), (66956, [66995]),
    (66957, [66996]), (66958, [66997]), (66959, [66998]), (66960, [66999]), (66961, [67000]),
    (66962, [67001]), (66964, [67003]), (66965, [67004]), (68736, [68800]), (68737, [68801]),
    (68738, [68802]), (68739, [68803]), (68740, [68804]), (68741, [68805]), (68742, [68806]),
    (68743, [68807]), (68744, [68808]), (68745, [68809]), (68746, [68810]), (68747, [68811]),
    (68748, [68812]), (68749, [68813]), (68750, [68814]), (68751, [68815]), (68752, [68816]),
    (68753, [68817]), (68754, [68818]), (68755, [68819]), (68756, [68820]), (68757, [68821]),
    (68758, [68822]), (68759, [68823]), (68760, [68824]), (68761, [68825]), (68762, [68826]),
    (68763, [68827]), (68764, [68828]), (68765, [68829]), (68766, [68830]), (68767, [68831]),
    (68768, [68832]), (68769, [68833]), (68770, [68834]), (68771, [68835]), (68772, [68836]),
    (68773, [68837]), (68774, [68838]), (68775, [68839]), (68776, [68840]), (68777, [68841]),
    (68778, [68842]), (68779, [68843]), (68780, [68844]), (68781, [68845]), (68782, [68846]),
    (68783, [68847]), (68784, [68848]), (68785, [68849]), (68786, [68850]), (71840, [71872]),
    (71841, [71873]), (71842, [71874]), (71843, [71875]), (71844, [71876]), (71845, [71877]),
    (71846, [71878]), (71847, [71879]), (71848, [71880]), (71849, [71881]), (71850, [71882]),
    (71851, [71883]), (71852, [71884]), (71853, [71885]), (71854, [71886]), (71855, [71887]),
    (71856, [71888]), (71857, [71889]), (71858, [71890]), (71859, [71891]), (71860, [71892]),
    (71861, [71893]), (71862, [71894]), (71863, [71895]), (71864, [71896]), (71865, [71897]),
    (71866, [71898]), (71867, [71899]), (71868, [71900]), (71869, [71901]), (71870, [71902]),
    (71871, [71903]), (93760, [93792]), (93761, [93793]), (93762, [93794]), (93763, [93795]),
    (93764, [93796]), (93765, [93797]), (93766, [93798]), (93767, [93799]), (93768, [93800]),
    (93769, [93801]), (93770, [93802]), (93771, [93803]), (93772, [93804]), (93773, [93805]),
    (93774, [93806]), (93775, [93807]), (93776, [93808]), (93777, [93809]), (93778, [93810]),
    (93779, [93811]), (93780, [93812]), (93781, [93813]), (93782, [93814]), (93783, [93815]),
    (93784, [93816]), (93785, [93817]), (93786, [93818]), (93787, [93819]), (93788, [93820]),
    (93789, [93821]), (93790, [93822]), (93791, [93823]), (125184, [125218]), (125185, [125219]),
    (125186, [125220]), (125187, [125221]), (125188, [125222]), (125189, [125223]), (125190, [125224]),
    (125191, [125225]), (125192, [125226]), (125193, [125227]), (125194, [125228]), (125195, [125229]),
    (125196, [125230]), (125197, [125231]), (125198, [125232]), (125199, [125233]), (125200, [125234]),
    (125201, [125235]), (125202, [125236]), (125203, [125237]), (125204, [125238]), (125205, [125239]),
    (125206, [125240]), (125207, [125241]), (125208, [125242]), (125209, [125243]), (125210, [125244]),
    (125211, [125245]), (125212, [125246]), (125213, [125247]), (125214, [125248]), (125215, [125249]),
    (125216, [125250]), (125217, [125251])]

/-- Code-point ranges of cased, non-case-ignorable characters (the
characters that block or establish the Final_Sigma context). -/
def casedRanges : List (Nat × Nat) := [
    (65, 90), (97, 122), (170, 170), (181, 181), (186, 186), (192, 214),
    (216, 246), (248, 442), (444, 447), (452, 659), (661, 687), (880, 883),
    (886, 887), (891, 893), (895, 895), (902, 902), (904, 906), (908, 908),
    (910, 929), (931, 1013), (1015, 1153), (1162, 1327), (1329, 1366), (1376, 1416),
    (4256, 4293), (4295, 4295), (4301, 4301), (4304, 4346), (4349, 4351), (5024, 5109),
    (5112, 5117), (7296, 7304), (7312, 7354), (7357, 7359), (7424, 7467), (7531, 7543),
    (7545, 7578), (7680, 7957), (7960, 7965), (7968, 8005), (8008, 8013), (8016, 8023),
    (8025, 8025), (8027, 8027), (8029, 8029), (8031, 8061), (8064, 8116), (8118, 8124),
    (8126, 8126), (8130, 8132), (8134, 8140), (8144, 8147), (8150, 8155), (8160, 8172),
    (8178, 8180), (8182, 8188), (8450, 8450), (8455, 8455), (8458, 8467), (8469, 8469),
    (8473, 8477), (8484, 8484), (8486, 8486), (8488, 8488), (8490, 8493), (8495, 8500),
    (8505, 8505), (8508, 8511), (8517, 8521), (8526, 8526), (8544, 8575), (8579, 8580),
    (9398, 9449), (11264, 11387), (11390, 11492), (11499, 11502), (11506, 11507), (11520, 11557),
    (11559, 11559), (11565, 11565), (42560, 42605), (42624, 42651), (42786, 42863), (42865, 42887),
    (42891, 42894), (42896, 42954), (42960, 42961), (42963, 42963), (42965, 42969), (42997, 42998),
    (43002, 43002), (43824, 43866), (43872, 43880), (43888, 43967), (64256, 64262), (64275, 64279),
    (65313, 65338), (65345, 65370), (66560, 66639), (66736, 66771), (66776, 66811), (66928, 66938),
    (66940, 66954), (66956, 66962), (66964, 66965), (66967, 66977), (66979, 66993), (66995, 67001),
    (67003, 67004), (68736, 68786), (68800, 68850), (71840, 71903), (93760, 93823), (119808, 119892),
    (119894, 119964), (119966, 119967), (119970, 119970), (119973, 119974), (119977, 119980), (119982, 119993),
    (119995, 119995), (119997, 120003), (120005, 120069), (120071, 120074), (120077, 120084), (120086, 120092),
    (120094, 120121), (120123, 120126), (120128, 120132), (120134, 120134), (120138, 120144), (120146, 120485),
    (120488, 120512), (120514, 120538), (120540, 120570), (120572, 120596), (120598, 120628), (120630, 120654),
    (120656, 120686), (120688, 120712), (120714, 120744), (120746, 120770), (120772, 120779), (122624, 122633),
    (122635, 122654), (125184, 125251), (127280, 127305), (127312, 127337), (127344, 127369)]

/-- Code-point ranges of case-ignorable characters (skipped when the
Final_Sigma context is decided). -/
def caseIgnorableRanges : List (Nat × Nat) := [
    (39, 39), (46, 46), (58, 58), (94, 94), (96, 96), (168, 168),
    (173, 173), (175, 175), (180, 180), (183, 184), (688, 879), (884, 885),
    (890, 890), (900, 901), (903, 903), (1155, 1161), (1369, 1369), (1375, 1375),
    (1425, 1469), (1471, 1471), (1473, 1474), (1476, 1477), (1479, 1479), (1524, 1524),
    (1536, 1541), (1552, 1562), (1564, 1564), (1600, 1600), (1611, 1631), (1648, 1648),
    (1750, 1757), (1759, 1768), (1770, 1773), (1807, 1807), (1809, 1809), (1840, 1866),
    (1958, 1968), (2027, 2037), (2042, 2042), (2045, 2045), (2070, 2093), (2137, 2139),
    (2184, 2184), (2192, 2193), (2200, 2207), (2249, 2306), (2362, 2362), (2364, 2364),
    (2369, 2376), (2381, 2381), (2385, 2391), (2402, 2403), (2417, 2417), (2433, 2433),
    (2492, 2492), (2497, 2500), (2509, 2509), (2530, 2531), (2558, 2558), (2561, 2562),
    (2620, 2620), (2625, 2626), (2631, 2632), (2635, 2637), (2641, 2641), (2672, 2673),
    (2677, 2677), (2689, 2690), (2748, 2748), (2753, 2757), (2759, 2760), (2765, 2765),
    (2786, 2787), (2810, 2815), (2817, 2817), (2876, 2876), (2879, 2879), (2881, 2884),
    (2893, 2893), (2901, 2902), (2914, 2915), (2946, 2946), (3008, 3008), (3021, 3021),
    (3072, 3072), (3076, 3076), (3132, 3132), (3134, 3136), (3142, 3144), (3146, 3149),
    (3157, 3158), (3170, 3171), (3201, 3201), (3260, 3260), (3263, 3263), (3270, 3270),
    (3276, 3277), (3298, 3299), (3328, 3329), (3387, 3388), (3393, 3396), (3405, 3405),
    (3426, 3427), (3457, 3457), (3530, 3530), (3538, 3540), (3542, 3542), (3633, 3633),
    (3636, 3642), (3654, 3662), (3761, 3761), (3764, 3772), (3782, 3782), (3784, 3789),
    (3864, 3865), (3893, 3893), (3895, 3895), (3897, 3897), (3953, 3966), (3968, 3972),
    (3974, 3975), (3981, 3991), (3993, 4028), (4038, 4038), (4141, 4144), (4146, 4151),
    (4153, 4154), (4157, 4158), (4184, 4185), (4190, 4192), (4209, 4212), (4226, 4226),
    (4229, 4230), (4237, 4237), (4253, 4253), (4348, 4348), (4957, 4959), (5906, 5908),
    (5938, 5939), (5970, 5971), (6002, 6003), (6068, 6069), (6071, 6077), (6086, 6086),
    (6089, 6099), (6103, 6103), (6109, 6109), (6155, 6159), (6211, 6211), (6277, 6278),
    (6313, 6313), (6432, 6434), (6439, 6440), (6450, 6450), (6457, 6459), (6679, 6680),
    (6683, 6683), (6742, 6742), (6744, 6750), (6752, 6752), (6754, 6754), (6757, 6764),
    (6771, 6780), (6783, 6783), (6823, 6823), (6832, 6862), (6912, 6915), (6964, 6964),
    (6966, 6970), (6972, 6972), (6978, 6978), (7019, 7027), (7040, 7041), (7074, 7077),
    (7080, 7081), (7083, 7085), (7142, 7142), (7144, 7145), (7149, 7149), (7151, 7153),
    (7212, 7219), (7222, 7223), (7288, 7293), (7376, 7378), (7380, 7392), (7394, 7400),
    (7405, 7405), (7412, 7412), (7416, 7417), (7468, 7530), (7544, 7544), (7579, 7679),
    (8125, 8125), (8127, 8129), (8141, 8143), (8157, 8159), (8173, 8175), (8189, 8190),
    (8203, 8207), (8216, 8217), (8228, 8228), (8231, 8231), (8234, 8238), (8288, 8292),
    (8294, 8303), (8305, 8305), (8319, 8319), (8336, 8348), (8400, 8432), (11388, 11389),
    (11503, 11505), (11631, 11631), (11647, 11647), (11744, 11775), (11823, 11823), (12293, 12293),
    (12330, 12333), (12337, 12341), (12347, 12347), (12441, 12446), (12540, 12542), (40981, 40981),
    (42232, 42237), (42508, 42508), (42607, 42610), (42612, 42621), (42623, 42623), (42652, 42655),
    (42736, 42737), (42752, 42785), (42864, 42864), (42888, 42890), (42994, 42996), (43000, 43001),
    (43010, 43010), (43014, 43014), (43019, 43019), (43045, 43046), (43052, 43052), (43204, 43205),
    (43232, 43249), (43263, 43263), (43302, 43309), (43335, 43345), (43392, 43394), (43443, 43443),
    (43446, 43449), (43452, 43453), (43471, 43471), (43493, 43494), (43561, 43566), (43569, 43570),
    (43573, 43574), (43587, 43587), (43596, 43596), (43632, 43632), (43644, 43644), (43696, 43696),
    (43698, 43700), (43703, 43704), (43710, 43711), (43713, 43713), (43741, 43741), (43756, 43757),
    (43763, 43764), (43766, 43766), (43867, 43871), (43881, 43883), (44005, 44005), (44008, 44008),
    (44013, 44013), (64286, 64286), (64434, 64450), (65024, 65039), (65043, 65043), (65056, 65071),
    (65106, 65106), (65109, 65109), (65279, 65279), (65287, 65287), (65294, 65294), (65306, 65306),
    (65342, 65342), (65344, 65344), (65392, 65392), (65438, 65439), (65507, 65507), (65529, 65531),
    (66045, 66045), (66272, 66272), (66422, 66426), (67456, 67461), (67463, 67504), (67506, 67514),
    (68097, 68099), (68101, 68102), (68108, 68111), (68152, 68154), (68159, 68159), (68325, 68326),
    (68900, 68903), (69291, 69292), (69446, 69456), (69506, 69509), (69633, 69633), (69688, 69702),
    (69744, 69744), (69747, 69748), (69759, 69761), (69811, 69814), (69817, 69818), (69821, 69821),
    (69826, 69826), (69837, 69837), (69888, 69890), (69927, 69931), (69933, 69940), (70003, 70003),
    (70016, 70017), (70070, 70078), (70089, 70092), (70095, 70095), (70191, 70193), (70196, 70196),
    (70198, 70199), (70206, 70206), (70367, 70367), (70371, 70378), (70400, 70401), (70459, 70460),
    (70464, 70464), (70502, 70508), (70512, 70516), (70712, 70719), (70722, 70724), (70726, 70726),
    (70750, 70750), (70835, 70840), (70842, 70842), (70847, 70848), (70850, 70851), (71090, 71093),
    (71100, 71101), (71103, 71104), (71132, 71133), (71219, 71226), (71229, 71229), (71231, 71232),
    (71339, 71339), (71341, 71341), (71344, 71349), (71351, 71351), (71453, 71455), (71458, 71461),
    (71463, 71467), (71727, 71735), (71737, 71738), (71995, 71996), (71998, 71998), (72003, 72003),
    (72148, 72151), (72154, 72155), (72160, 72160), (72193, 72202), (72243, 72248), (72251, 72254),
    (72263, 72263), (72273, 72278), (72281, 72283), (72330, 72342), (72344, 72345), (72752, 72758),
    (72760, 72765), (72767, 72767), (72850, 72871), (72874, 72880), (72882, 72883), (72885, 72886),
    (73009, 73014), (73018, 73018), (73020, 73021), (73023, 73029), (73031, 73031), (73104, 73105),
    (73109, 73109), (73111, 73111), (73459, 73460), (78896, 78904), (92912, 92916), (92976, 92982),
    (92992, 92995), (94031, 94031), (94095, 94111), (94176, 94177), (94179, 94180), (110576, 110579),
    (110581, 110587), (110589, 110590), (113821, 113822), (113824, 113827), (118528, 118573), (118576, 118598),
    (119143, 119145), (119155, 119170), (119173, 119179), (119210, 119213), (119362, 119364), (121344, 121398),
    (121403, 121452), (121461, 121461), (121476, 121476), (121499, 121503), (121505, 121519), (122880, 122886),
    (122888, 122904), (122907, 122913), (122915, 122916), (122918, 122922), (123184, 123197), (123566, 123566),
    (123628, 123631), (125136, 125142), (125252, 125259), (127995, 127999), (917505, 917505), (917536, 917631),
    (917760, 917999)]

def inRanges (n : Nat) : List (Nat × Nat) → Bool
  | [] => false
  | (lo, hi) :: rest => (decide (lo ≤ n) && decide (n ≤ hi)) || inRanges n rest

def casedChar (c : Char) : Bool := inRanges c.toNat casedRanges

def caseIgnorableChar (c : Char) : Bool := inRanges c.toNat caseIgnorableRanges

/-- Whether a cased character follows, skipping case-ignorable characters:
the forward half of the Final_Sigma condition. -/
def followedByCased : List Char → Bool
  | [] => false
  | c :: rest => if caseIgnorableChar c then followedByCased rest else casedChar c

def lowerOfCode (n : Nat) : List Nat :=
  match lowerTable.lookup n with
  | some ms => ms
  | none => [n]

/-- The character-by-character walk of `toLowerCase`: `prevCased` records
whether a cased character precedes the current position (skipping
case-ignorable characters).  U+03A3 maps to final sigma exactly under the
Final_Sigma condition; every other character maps through the table. -/
def toLowerAux : Bool → List Char → List Char
  | _, [] => []
  | prevCased, c :: rest =>
    (if c.toNat = 931 then
      if prevCased && !(followedByCased rest) then [Char.ofNat 962] else [Char.ofNat 963]
    else (lowerOfCode c.toNat).map Char.ofNat) ++
      toLowerAux (if caseIgnorableChar c then prevCased else casedChar c) rest

/-- `String.prototype.toLowerCase`: the Unicode Default Case Conversion —
the full lowercase mapping (with the one multi-character mapping, U+0130)
and the context-sensitive Final_Sigma rule for U+03A3. -/
def toLowerChars (l : List Char) : List Char := toLowerAux false l

/-- `String.prototype.trim`: strip leading and trailing whitespace. -/
def jsTrim (l : List Char) : List Char :=
  ((l.dropWhile jsWhitespaceChar).reverse.dropWhile jsWhitespaceChar).reverse

/-- Global replace of the regex `\s+` by a single space: every maximal run
of whitespace characters — whatever characters it holds — becomes one
U+0020. -/
def collapseWS : List Char → List Char
  | [] => []
  | [c] => if jsWhitespaceChar c then [' '] else [c]
  | c1 :: c2 :: rest =>
    if jsWhitespaceChar c1 then
      if jsWhitespaceChar c2 then collapseWS (c2 :: rest)
      else ' ' :: collapseWS (c2 :: rest)
    else c1 :: collapseWS (c2 :: rest)

/-- Replace of the anchored regex `^the\s+` (case-insensitive) by the empty
string. -/
def stripLeadingThe (l : List Char) : List Char :=
  match l with
  | t :: h :: e :: rest =>
    if (t.toLower = 't' ∧ h.toLower = 'h' ∧ e.toLower = 'e') ∧
        rest.takeWhile jsWhitespaceChar ≠ [] then
      rest.dropWhile jsWhitespaceChar
    else l
  | _ => l

/-- One attempted match of the regex `\s+&\s+` at the head of the list;
`some rest` is the suffix after the matched text. -/
def ampMatch (l : List Char) : Option (List Char) :=
  match l.dropWhile jsWhitespaceChar with
  | amp :: r2 =>
    if (l.takeWhile jsWhitespaceChar ≠ [] ∧ amp = '&') ∧
        r2.takeWhile jsWhitespaceChar ≠ [] then
      some (r2.dropWhile jsWhitespaceChar)
    else none
  | [] => none

/-- Left-to-right global replace of `\s+&\s+` by " and " (fuel-indexed; the
fuel `l.length` suffices because every step consumes at least one
character). -/
def ampAux : Nat → List Char → List Char
  | 0, l => l
  | _ + 1, [] => []
  | fuel + 1, c :: cs =>
    match ampMatch (c :: cs) with
    | some rest => ' ' :: 'a' :: 'n' :: 'd' :: ' ' :: ampAux fuel rest
    | none => c :: ampAux fuel cs

def ampReplace (l : List Char) : List Char := ampAux l.length l

/-- The apostrophe-normalization step of the source.  In the source file the
character class of the replace call consists of two U+0027 APOSTROPHE code
points (not curly quotes), and the replacement is U+0027, so the step maps
a straight apostrophe to itself and leaves every character unchanged. -/
def aposReplace (l : List Char) : List Char :=
  l.map (fun c => if c = Char.ofNat 39 ∨ c = Char.ofNat 39 then Char.ofNat 39 else c)

/-- `normalizeArtistName` of the shared normalize module: for a string,
lowercase, trim, collapse whitespace runs, strip a leading "the ", replace
" & " by " and ", apply the apostrophe step, trim again; any non-string
input yields the empty string. -/
def normalizeArtistName (name : JVal) : String :=
  match name with
  | JVal.jstr s =>
    String.mk (jsTrim (aposReplace (ampReplace (stripLeadingThe (collapseWS (jsTrim
      (toLowerChars s.data)))))))
  | _ => ""

/-- `findMatchingShows(userArtistNames, shows)` of the shared normalize
module.  The parameter `dateKey` abstracts the implementation-defined
`Date.parse` inside the sort comparator `new Date(a.date) - new Date(b.date)`;
the ECMAScript stable sort is modelled by insertion sort on that key.
`none` models the TypeError thrown when `shows` is not an array
(`shows.filter` does not exist then). -/
def findMatchingShows (dateKey : JVal → Int) (userArtistNames : List String)
    (shows : JVal) : Option (List JVal) :=
  match shows with
  | JVal.jarr l =>
    let matched := l.filter (fun sh =>
      if isFalsy sh then false
      else
        match getField sh "artists" with
        | some (JVal.jarr arts) =>
          arts.any (fun artist => userArtistNames.contains (normalizeArtistName artist))
        | _ => false)
    some (@List.insertionSort JVal (fun a b => dateKey a ≤ dateKey b)
      (fun a b => Int.decLe _ _) matched)
  | _ => none

/-!
Section 5: weeklyShows.js — date/time parsing, the week window and the
organizer.
-/

/-- Match of the anchored regex `^(\d{1,2}):(\d{2})\s*(AM|PM)$/i` of
`parseShowTime`: hour group value, minute group value, and whether the
meridiem is PM.  (On the all-digit capture groups, `parseInt(g, 10)` is
`digitsToNat`.) -/
def timeMatch (l : List Char) : Option (Nat × Nat × Bool) :=
  let hd := l.takeWhile Char.isDigit
  let r1 := l.dropWhile Char.isDigit
  if hd.length = 0 ∨ 2 < hd.length then none
  else
    match r1 with
    | c :: r2 =>
      if c ≠ ':' then none
      else
        let md := r2.takeWhile Char.isDigit
        let r3 := r2.dropWhile Char.isDigit
        if md.length ≠ 2 then none
        else
          match r3.dropWhile jsWhitespaceChar with
          | [p, m2] =>
            if (p.toLower = 'a' ∨ p.toLower = 'p') ∧ m2.toLower = 'm' then
              some (digitsToNat hd, digitsToNat md, p.toLower = 'p')
            else none
          | _ => none
    | [] => none

/-- `parseShowTime` of weeklyShows.js: minutes since midnight; 0 for the
empty string (falsy) and for any input not matching the pattern.  The
12-hour conversion: 12 AM maps to hour 0, PM hours other than 12 add 12. -/
def parseShowTime (timeStr : String) : Int :=
  if timeStr = "" then 0
  else
    match timeMatch timeStr.data with
    | none => 0
    | some (h, m, isPM) =>
      let hours : Int :=
        if ¬isPM ∧ h = 12 then 0
        else if isPM ∧ h ≠ 12 then (h : Int) + 12
        else (h : Int)
      hours * 60 + (m : Int)

/-- `parseShowDate` of weeklyShows.js: reject the empty string (falsy),
split on "/", require exactly three segments, `parseInt` each (null when any
is NaN), build the `Date` and reject when re-deriving the month or the day
gives back different values (rollover). -/
def parseShowDate (dateStr : String) : Option Int :=
  if dateStr = "" then none
  else
    match splitOnChar '/' dateStr.data with
    | [p1, p2, p3] =>
      match jsParseInt p1, jsParseInt p2, jsParseInt p3 with
      | some month, some day, some year =>
        let date := jsDateCtor year (month - 1) day
        if jsGetMonth date ≠ month - 1 ∨ jsGetDate date ≠ day then none
        else some date
      | _, _, _ => none
    | _ => none

/-- `getWeekStart` of weeklyShows.js: the Monday on or before the date, via
`setDate(getDate() - daysFromMonday)`.  (`setHours(0,0,0,0)` is the identity
in the day-number model.) -/
def getWeekStart (z : Int) : Int :=
  let dayOfWeek := jsGetDay z
  let daysFromMonday := if dayOfWeek = 0 then 6 else dayOfWeek - 1
  jsSetDate z (jsGetDate z - daysFromMonday)

/-- `getWeekEnd` of weeklyShows.js: the Sunday of the same week.  The code
sets the time to 23:59:59().999, which stays inside the same civil day, so
the day-number model keeps just the day. -/
def getWeekEnd (z : Int) : Int :=
  let monday := getWeekStart z
  jsSetDate monday (jsGetDate monday + 6)

def DAY_LABELS : List String := ["Mon", "Tue", "Wed", "Thu", "Fri", "Sat", "Sun"]

/-- A well-formed Show record (§3 of the specification). -/
structure Show where
  artists : List String
  venue : String
  date : String
  time : String
deriving DecidableEq

/-- The object spread `β€¦` copy performed when a show is pushed into a day
bucket: a fresh object with the same four fields. -/
def copyShow (s : Show) : Show :=
  { artists := s.artists, venue := s.venue, date := s.date, time := s.time }

structure DaySchedule where
  label : String
  date : String
  shows : List Show
deriving DecidableEq

structure WeekSchedule where
  weekStartDate : Int
  weekEndDate : Int
  days : List DaySchedule
deriving DecidableEq

/-- The comparator `parseShowTime(a.time) - parseShowTime(b.time)` orders
shows by parsed time; ECMAScript sort is stable, which insertion sort on
this relation models exactly. -/
def timeLE (a b : Show) : Prop := parseShowTime a.time ≤ parseShowTime b.time

instance : DecidableRel timeLE := fun a b => Int.decLe _ _

instance : IsTotal Show timeLE := ⟨fun a b => le_total _ _⟩

instance : IsTrans Show timeLE := ⟨fun _ _ _ => le_trans⟩

/-- The seven-day scaffold built by `DAY_LABELS.map((label, index) => ...)`:
each day gets the label, the ISO string of `weekStart + index` days (via
`setDate(weekStart.getDate() + index)`), and an empty show list. -/
def initDays (weekStart : Int) : List DaySchedule :=
  DAY_LABELS.enum.map (fun p =>
    { label := p.2,
      date := toISODateString (jsSetDate weekStart (jsGetDate weekStart + (p.1 : Int))),
      shows := [] })

/-- Lookup in the `Map` built as `new Map(days.map(day => [day.date, day]))`:
with duplicate keys the later entry overwrites the earlier one, so the
lookup finds the last index carrying the date. -/
def findLastIdx (days : List DaySchedule) (iso : String) : Option Nat :=
  match days with
  | [] => none
  | day :: rest =>
    match findLastIdx rest iso with
    | some j => some (j + 1)
    | none => if day.date = iso then some 0 else none

/-- In-place update of the element at an index (the mutation of the shared
day object reached through the Map). -/
def modifyIdx (f : α → α) : Nat → List α → List α
  | _, [] => []
  | 0, a :: as => f a :: as
  | n + 1, a :: as => a :: modifyIdx f n as

/-- One iteration of the show-assignment loop of `organizeShowsByWeek`:
parse the date (silently skip on null), compute the ISO string, look the day
up in the Map, and push a spread-copy of the show into that day. -/
def assignShow (days : List DaySchedule) (s : Show) : List DaySchedule :=
  match parseShowDate s.date with
  | none => days
  | some dz =>
    match findLastIdx days (toISODateString dz) with
    | none => days
    | some i =>
      modifyIdx (fun day => { day with shows := day.shows ++ [copyShow s] }) i days

/-- The per-day sort `day.shows.sort((a, b) => parseShowTime(a.time) -
parseShowTime(b.time))`. -/
def sortDay (day : DaySchedule) : DaySchedule :=
  { day with shows := List.insertionSort timeLE day.shows }

/-- `organizeShowsByWeek(shows, referenceDate)` of weeklyShows.js.  The
`new Date(referenceDate)` defensive copy is the identity on day numbers. -/
def organizeShowsByWeek (shows : List Show) (referenceDate : Int) : WeekSchedule :=
  let refDate := referenceDate
  let weekStart := getWeekStart refDate
  let weekEnd := getWeekEnd refDate
  let days := initDays weekStart
  let days2 := shows.foldl assignShow days
  let days3 := days2.map sortDay
  { weekStartDate := weekStart, weekEndDate := weekEnd, days := days3 }

/-!
The organizer over raw JavaScript values, for the error-handling claims: the
run aborts (`none`) exactly where the JavaScript would throw.
-/

structure DayScheduleJV where
  label : String
  date : String
  shows : List JVal

/-- `parseShowDate` applied to an arbitrary value: falsy and non-string
inputs give null without throwing. -/
def parseShowDateJV (v : JVal) : Option Int :=
  if isFalsy v then none
  else
    match v with
    | JVal.jstr s => parseShowDate s
    | _ => none

/-- `parseShowTime` applied to an arbitrary value. -/
def parseShowTimeJV (v : JVal) : Int :=
  if isFalsy v then 0
  else
    match v with
    | JVal.jstr s => parseShowTime s
    | _ => 0

/-- The object spread `{ ...show }`: objects are copied field-by-field,
arrays and strings become objects with index keys, other primitives give an
empty object. -/
def jvalSpread (v : JVal) : JVal :=
  match v with
  | JVal.jobj fields => JVal.jobj fields
  | JVal.jarr xs => JVal.jobj (xs.enum.map (fun p => (String.mk (natDecChars p.1), p.2)))
  | JVal.jstr s =>
    JVal.jobj (s.data.enum.map (fun p => (String.mk (natDecChars p.1), JVal.jstr (String.mk [p.2]))))
  | _ => JVal.jobj []

def initDaysJV (weekStart : Int) : List DayScheduleJV :=
  DAY_LABELS.enum.map (fun p =>
    { label := p.2,
      date := toISODateString (jsSetDate weekStart (jsGetDate weekStart + (p.1 : Int))),
      shows := [] })

def findLastIdxJV (days : List DayScheduleJV) (iso : String) : Option Nat :=
  match days with
  | [] => none
  | day :: rest =>
    match findLastIdxJV rest iso with
    | some j => some (j + 1)
    | none => if day.date = iso then some 0 else none

/-- One loop iteration over a raw value: reading `show.date` throws
(`none`) when the element is null or undefined; otherwise malformed elements
are skipped silently. -/
def assignShowJV (days : List DayScheduleJV) (v : JVal) : Option (List DayScheduleJV) :=
  match getField v "date" with
  | none => none
  | some dv =>
    some (match parseShowDateJV dv with
      | none => days
      | some dz =>
        match findLastIdxJV days (toISODateString dz) with
        | none => days
        | some i =>
          modifyIdx (fun day => { day with shows := day.shows ++ [jvalSpread v] }) i days)

def assignAllJV (days : List DayScheduleJV) : List JVal → Option (List DayScheduleJV)
  | [] => some days
  | v :: rest =>
    match assignShowJV days v with
    | none => none
    | some days2 => assignAllJV days2 rest

/-- Sort key for a bucket element: bucket elements are always spread-copies
(objects), on which reading `time` cannot throw. -/
def bucketTimeKey (v : JVal) : Int :=
  match getField v "time" with
  | some t => parseShowTimeJV t
  | none => 0

structure WeekScheduleJV where
  weekStartDate : Int
  weekEndDate : Int
  days : List DayScheduleJV

/-- Per-day sort of a raw bucket by parsed show time. -/
def sortDayJV (day : DayScheduleJV) : DayScheduleJV :=
  let sorted := @List.insertionSort JVal
    (fun a b => bucketTimeKey a ≤ bucketTimeKey b) (fun a b => Int.decLe _ _) day.shows
  { day with shows := sorted }

/-- `organizeShowsByWeek` on an arbitrary top-level value: `for (const show
of shows)` iterates arrays element-wise and strings character-wise, and
throws (`none`) on every other value; elements are processed by
`assignShowJV`. -/
def organizeShowsByWeekJV (top : JVal) (referenceDate : Int) : Option WeekScheduleJV :=
  let elems : Option (List JVal) :=
    match top with
    | JVal.jarr xs => some xs
    | JVal.jstr s => some (s.data.map (fun c => JVal.jstr (String.mk [c])))
    | _ => none
  match elems with
  | none => none
  | some xs =>
    let weekStart := getWeekStart referenceDate
    let weekEnd := getWeekEnd referenceDate
    match assignAllJV (initDaysJV weekStart) xs with
    | none => none
    | some days2 =>
      some { weekStartDate := weekStart, weekEndDate := weekEnd,
             days := days2.map sortDayJV }

/-!
Section 6: machinery about the organizer loop.
-/

/-- The day index a show is routed to: the Map lookup on the ISO string of
its parsed date. -/
def targetIdx (days : List DaySchedule) (s : Show) : Option Nat :=
  match parseShowDate s.date with
  | none => none
  | some dz => findLastIdx days (toISODateString dz)

/-- Retained shows (§8 of the specification): valid date inside the
`weekStart`..`weekEnd` window of the reference date. -/
def retainedShow (referenceDate : Int) (s : Show) : Bool :=
  match parseShowDate s.date with
  | some dz => decide (getWeekStart referenceDate ≤ dz ∧ dz ≤ getWeekEnd referenceDate)
  | none => false

theorem getWeekEnd_eq (z : Int) : getWeekEnd z = getWeekStart z + 6 :=
  setDate_add _ 6

theorem copyShow_eq : copyShow = id := funext (fun _ => rfl)

theorem modifyIdx_length (f : α → α) (i : Nat) (l : List α) :
    (modifyIdx f i l).length = l.length := by
  induction l generalizing i with
  | nil => cases i <;> rfl
  | cons a as ih =>
    cases i with
    | zero => rfl
    | succ n => simp only [modifyIdx, List.length_cons, ih]

theorem modifyIdx_getD (f : α → α) (i j : Nat) (l : List α) (dflt : α) :
    (modifyIdx f i l).getD j dflt =
      if i = j ∧ j < l.length then f (l.getD j dflt) else l.getD j dflt := by
  induction l generalizing i j with
  | nil => cases i <;> simp [modifyIdx]
  | cons a as ih =>
    cases i with
    | zero =>
      cases j with
      | zero => simp [modifyIdx]
      | succ m => simp [modifyIdx, Nat.succ_ne_zero]
    | succ n =>
      cases j with
      | zero => simp [modifyIdx]
      | succ m =>
        simp only [modifyIdx, List.getD_cons_succ, List.length_cons, ih]
        by_cases hc : n = m ∧ m < as.length
        · rw [if_pos hc, if_pos (by omega)]
        · rw [if_neg hc, if_neg (by omega)]

theorem modifyIdx_map (g : α → β) (f : α → α) (hgf : ∀ a, g (f a) = g a) (i : Nat) (l : List α) :
    (modifyIdx f i l).map g = l.map g := by
  induction l generalizing i with
  | nil => cases i <;> rfl
  | cons a as ih =>
    cases i with
    | zero => simp only [modifyIdx, List.map_cons, hgf]
    | succ n => simp only [modifyIdx, List.map_cons, ih]

theorem findLastIdx_some (days : List DaySchedule) (iso : String) (i : Nat) (dflt : DaySchedule)
    (h : findLastIdx days iso = some i) :
    i < days.length ∧ (days.getD i dflt).date = iso := by
  induction days generalizing i with
  | nil => simp [findLastIdx] at h
  | cons day rest ih =>
    rw [findLastIdx] at h
    cases hrec : findLastIdx rest iso with
    | some j =>
      simp only [hrec, Option.some.injEq] at h
      subst h
      obtain ⟨hj, hdate⟩ := ih j hrec
      refine ⟨by simp only [List.length_cons]; omega, ?_⟩
      simpa using hdate
    | none =>
      simp only [hrec] at h
      split at h
      · simp only [Option.some.injEq] at h
        subst h
        refine ⟨by simp, ?_⟩
        simpa using (by assumption : day.date = iso)
      · simp at h

theorem findLastIdx_of_getD (days : List DaySchedule) (iso : String) (i : Nat) (dflt : DaySchedule)
    (hnd : (days.map DaySchedule.date).Nodup)
    (hi : i < days.length) (hdate : (days.getD i dflt).date = iso) :
    findLastIdx days iso = some i := by
  induction days generalizing i with
  | nil => simp at hi
  | cons day rest ih =>
    rw [List.map_cons, List.nodup_cons] at hnd
    rw [findLastIdx]
    cases i with
    | zero =>
      simp only [List.getD_cons_zero] at hdate
      have hnone : findLastIdx rest iso = none := by
        cases hrec : findLastIdx rest iso with
        | none => rfl
        | some j =>
          exfalso
          obtain ⟨hj, hjd⟩ := findLastIdx_some rest iso j dflt hrec
          apply hnd.1
          rw [hdate, ← hjd]
          have hmem : rest.getD j dflt ∈ rest := by
            rw [List.getD_eq_getElem rest dflt hj]
            exact List.getElem_mem hj
          exact List.mem_map_of_mem DaySchedule.date hmem
      rw [hnone, if_pos hdate]
    | succ m =>
      simp only [List.getD_cons_succ] at hdate
      rw [ih m hnd.2 (by simpa using hi) hdate]

theorem findLastIdx_isSome_iff (days : List DaySchedule) (iso : String) :
    (findLastIdx days iso).isSome = true ↔ iso ∈ days.map DaySchedule.date := by
  induction days with
  | nil => simp [findLastIdx]
  | cons day rest ih =>
    have hstep : findLastIdx (day :: rest) iso =
        match findLastIdx rest iso with
        | some j => some (j + 1)
        | none => if day.date = iso then some 0 else none := rfl
    rw [hstep, List.map_cons, List.mem_cons, ← ih]
    cases findLastIdx rest iso with
    | some j => simp
    | none =>
      by_cases hd : day.date = iso
      · simp [hd, eq_comm]
      · simp only [if_neg hd, Option.isSome_none, Bool.false_eq_true, false_iff, or_false]
        exact fun hcon => hd hcon.symm

/-- The default value used with `List.getD` on day lists. -/
def dayDflt : DaySchedule := { label := "", date := "", shows := [] }

theorem assignShow_map_label (days : List DaySchedule) (s : Show) :
    (assignShow days s).map DaySchedule.label = days.map DaySchedule.label := by
  unfold assignShow
  split
  · rfl
  · split
    · rfl
    · exact modifyIdx_map DaySchedule.label
        (fun day => { day with shows := day.shows ++ [copyShow s] }) (fun a => rfl) _ days

theorem assignShow_map_date (days : List DaySchedule) (s : Show) :
    (assignShow days s).map DaySchedule.date = days.map DaySchedule.date := by
  unfold assignShow
  split
  · rfl
  · split
    · rfl
    · exact modifyIdx_map DaySchedule.date
        (fun day => { day with shows := day.shows ++ [copyShow s] }) (fun a => rfl) _ days

theorem assignShow_length (days : List DaySchedule) (s : Show) :
    (assignShow days s).length = days.length := by
  unfold assignShow
  split
  · rfl
  · split
    · rfl
    · exact modifyIdx_length _ _ days

theorem foldl_assign_map_label (shows : List Show) (days : List DaySchedule) :
    (shows.foldl assignShow days).map DaySchedule.label = days.map DaySchedule.label := by
  induction shows generalizing days with
  | nil => rfl
  | cons s rest ih => rw [List.foldl_cons, ih, assignShow_map_label]

theorem foldl_assign_map_date (shows : List Show) (days : List DaySchedule) :
    (shows.foldl assignShow days).map DaySchedule.date = days.map DaySchedule.date := by
  induction shows generalizing days with
  | nil => rfl
  | cons s rest ih => rw [List.foldl_cons, ih, assignShow_map_date]

theorem foldl_assign_length (shows : List Show) (days : List DaySchedule) :
    (shows.foldl assignShow days).length = days.length := by
  induction shows generalizing days with
  | nil => rfl
  | cons s rest ih => rw [List.foldl_cons, ih, assignShow_length]

/-- The seven-day scaffold, written out: labels Mon..Sun in order and the ISO
strings of the seven consecutive days from the week start. -/
theorem initDays_eq (w : Int) :
    initDays w =
      [ { label := "Mon", date := toISODateString w, shows := [] },
        { label := "Tue", date := toISODateString (w + 1), shows := [] },
        { label := "Wed", date := toISODateString (w + 2), shows := [] },
        { label := "Thu", date := toISODateString (w + 3), shows := [] },
        { label := "Fri", date := toISODateString (w + 4), shows := [] },
        { label := "Sat", date := toISODateString (w + 5), shows := [] },
        { label := "Sun", date := toISODateString (w + 6), shows := [] } ] := by
  have e : initDays w =
      [ { label := "Mon",
          date := toISODateString (jsSetDate w (jsGetDate w + ((0 : Nat) : Int))), shows := [] },
        { label := "Tue",
          date := toISODateString (jsSetDate w (jsGetDate w + ((1 : Nat) : Int))), shows := [] },
        { label := "Wed",
          date := toISODateString (jsSetDate w (jsGetDate w + ((2 : Nat) : Int))), shows := [] },
        { label := "Thu",
          date := toISODateString (jsSetDate w (jsGetDate w + ((3 : Nat) : Int))), shows := [] },
        { label := "Fri",
          date := toISODateString (jsSetDate w (jsGetDate w + ((4 : Nat) : Int))), shows := [] },
        { label := "Sat",
          date := toISODateString (jsSetDate w (jsGetDate w + ((5 : Nat) : Int))), shows := [] },
        { label := "Sun",
          date := toISODateString (jsSetDate w (jsGetDate w + ((6 : Nat) : Int))), shows := [] } ] :=
    rfl
  rw [e]
  simp only [setDate_add]
  norm_num

theorem initDays_map_label (w : Int) :
    (initDays w).map DaySchedule.label = DAY_LABELS := by
  rw [initDays_eq]; rfl

theorem initDays_map_date (w : Int) :
    (initDays w).map DaySchedule.date =
      [toISODateString w, toISODateString (w + 1), toISODateString (w + 2),
       toISODateString (w + 3), toISODateString (w + 4), toISODateString (w + 5),
       toISODateString (w + 6)] := by
  rw [initDays_eq]; rfl

theorem initDays_length (w : Int) : (initDays w).length = 7 := by
  rw [initDays_eq]; rfl

theorem initDays_getD_shows (w : Int) (i : Nat) :
    ((initDays w).getD i dayDflt).shows = [] := by
  rw [initDays_eq]
  rcases i with _ | _ | _ | _ | _ | _ | _ | n <;> rfl

theorem initDays_date_nodup (w : Int) : ((initDays w).map DaySchedule.date).Nodup := by
  have key : ∀ a b : Int, a ≠ b → toISODateString a ≠ toISODateString b :=
    fun a b hne h => hne (toISODateString_inj a b h)
  rw [initDays_map_date]
  simp only [List.nodup_cons, List.mem_cons, List.not_mem_nil, or_false, not_or,
    List.nodup_nil, and_true]
  repeat' apply And.intro
  all_goals first
    | exact key _ _ (by omega)
    | trivial

theorem mem_initDays_date_iff (w dz : Int) :
    toISODateString dz ∈ (initDays w).map DaySchedule.date ↔ (w ≤ dz ∧ dz ≤ w + 6) := by
  rw [initDays_map_date]
  simp only [List.mem_cons, List.not_mem_nil, or_false]
  constructor
  · rintro (h | h | h | h | h | h | h) <;>
      (have h2 := toISODateString_inj _ _ h; omega)
  · rintro ⟨h1, h2⟩
    have hcase : dz = w ∨ dz = w + 1 ∨ dz = w + 2 ∨ dz = w + 3 ∨ dz = w + 4 ∨ dz = w + 5 ∨
        dz = w + 6 := by omega
    rcases hcase with rfl | rfl | rfl | rfl | rfl | rfl | rfl <;> simp

theorem findLastIdx_congr (days days2 : List DaySchedule)
    (h : days.map DaySchedule.date = days2.map DaySchedule.date) (iso : String) :
    findLastIdx days iso = findLastIdx days2 iso := by
  induction days generalizing days2 with
  | nil =>
    cases days2 with
    | nil => rfl
    | cons d2 r2 => simp at h
  | cons day rest ih =>
    cases days2 with
    | nil => simp at h
    | cons d2 r2 =>
      simp only [List.map_cons, List.cons.injEq] at h
      have h1 : findLastIdx (day :: rest) iso =
          match findLastIdx rest iso with
          | some j => some (j + 1)
          | none => if day.date = iso then some 0 else none := rfl
      have h2 : findLastIdx (d2 :: r2) iso =
          match findLastIdx r2 iso with
          | some j => some (j + 1)
          | none => if d2.date = iso then some 0 else none := rfl
      rw [h1, h2, ih r2 h.2, h.1]

theorem targetIdx_congr (days days2 : List DaySchedule)
    (h : days.map DaySchedule.date = days2.map DaySchedule.date) (s : Show) :
    targetIdx days s = targetIdx days2 s := by
  unfold targetIdx
  cases parseShowDate s.date with
  | none => rfl
  | some dz => exact findLastIdx_congr days days2 h _

theorem targetIdx_lt (days : List DaySchedule) (s : Show) (i : Nat)
    (h : targetIdx days s = some i) : i < days.length := by
  unfold targetIdx at h
  cases hp : parseShowDate s.date with
  | none => simp only [hp] at h; exact Option.noConfusion h
  | some dz =>
    simp only [hp] at h
    exact (findLastIdx_some days _ i dayDflt h).1

/-- One step of the assignment loop, described through `List.getD`: the day
at the target index gets the spread copy of the show appended, every other
day is unchanged. -/
theorem assignShow_getD (days : List DaySchedule) (s : Show) (i : Nat) (dflt : DaySchedule) :
    (assignShow days s).getD i dflt =
      if targetIdx days s = some i then
        { days.getD i dflt with shows := (days.getD i dflt).shows ++ [copyShow s] }
      else days.getD i dflt := by
  unfold assignShow targetIdx
  cases hp : parseShowDate s.date with
  | none => simp
  | some dz =>
    simp only []
    cases hf : findLastIdx days (toISODateString dz) with
    | none => simp
    | some j =>
      rw [modifyIdx_getD]
      have hj := (findLastIdx_some days _ j dayDflt hf).1
      by_cases hij : j = i
      · subst hij
        rw [if_pos ⟨rfl, by omega⟩, if_pos rfl]
      · rw [if_neg (fun hc => hij hc.1), if_neg (by simp [hij])]

/-- The whole assignment loop, described through `List.getD`: each day ends
with its initial shows followed by the spread copies of exactly the input
shows whose Map lookup routes them to that index, in input order. -/
theorem foldl_assign_getD (shows : List Show) (days : List DaySchedule) (i : Nat)
    (dflt : DaySchedule) :
    (shows.foldl assignShow days).getD i dflt =
      { days.getD i dflt with shows := (days.getD i dflt).shows ++
          (shows.filter (fun s => targetIdx days s = some i)).map copyShow } := by
  induction shows generalizing days with
  | nil => simp
  | cons s rest ih =>
    rw [List.foldl_cons, ih (assignShow days s)]
    have hfc : rest.filter (fun x => targetIdx (assignShow days s) x = some i)
        = rest.filter (fun x => targetIdx days x = some i) :=
      List.filter_congr (fun x _ => by
        rw [targetIdx_congr (assignShow days s) days (assignShow_map_date days s) x])
    rw [hfc, assignShow_getD, List.filter_cons]
    by_cases hs : targetIdx days s = some i
    · rw [if_pos hs, if_pos (by simpa using hs)]
      simp [List.append_assoc]
    · rw [if_neg hs, if_neg (by simpa using hs)]

theorem organize_days_eq (shows : List Show) (d : Int) :
    (organizeShowsByWeek shows d).days =
      (shows.foldl assignShow (initDays (getWeekStart d))).map sortDay := rfl

theorem organize_days_length (shows : List Show) (d : Int) :
    (organizeShowsByWeek shows d).days.length = 7 := by
  rw [organize_days_eq, List.length_map, foldl_assign_length, initDays_length]

theorem organize_getD (shows : List Show) (d : Int) (i : Nat) :
    (organizeShowsByWeek shows d).days.getD i dayDflt =
      sortDay ((shows.foldl assignShow (initDays (getWeekStart d))).getD i dayDflt) := by
  rw [organize_days_eq]
  calc ((shows.foldl assignShow (initDays (getWeekStart d))).map sortDay).getD i dayDflt
      = ((shows.foldl assignShow (initDays (getWeekStart d))).map sortDay).getD i
          (sortDay dayDflt) := rfl
    _ = sortDay ((shows.foldl assignShow (initDays (getWeekStart d))).getD i dayDflt) :=
        List.getD_map _ _ _

/-- The shows of any day of the organizer's result: the stable sort by parsed
time of exactly the input shows routed to that day, in input order. -/
theorem organize_bucket (shows : List Show) (d : Int) (i : Nat) :
    ((organizeShowsByWeek shows d).days.getD i dayDflt).shows =
      List.insertionSort timeLE
        (shows.filter (fun s => targetIdx (initDays (getWeekStart d)) s = some i)) := by
  rw [organize_getD, foldl_assign_getD]
  simp only [sortDay, initDays_getD_shows, List.nil_append, copyShow_eq, List.map_id]

theorem modifyIdx_sum_len (i : Nat) (l : List DaySchedule) (s : Show) (hi : i < l.length) :
    ((modifyIdx (fun day => { day with shows := day.shows ++ [s] }) i l).map
        (fun day => day.shows.length)).sum =
      ((l.map (fun day => day.shows.length)).sum) + 1 := by
  induction l generalizing i with
  | nil => simp at hi
  | cons a as ih =>
    cases i with
    | zero =>
      simp only [modifyIdx, List.map_cons, List.sum_cons, List.length_append,
        List.length_singleton]
      omega
    | succ n =>
      simp only [modifyIdx, List.map_cons, List.sum_cons,
        ih n (by simpa using Nat.lt_of_succ_lt_succ (by simpa using hi))]
      omega

theorem assignShow_none (days : List DaySchedule) (s : Show)
    (h : targetIdx days s = none) : assignShow days s = days := by
  unfold targetIdx at h
  unfold assignShow
  cases hp : parseShowDate s.date with
  | none => rfl
  | some dz =>
    simp only [hp] at h
    show (match findLastIdx days (toISODateString dz) with
      | none => days
      | some i =>
        modifyIdx (fun day => { day with shows := day.shows ++ [copyShow s] }) i days) = days
    rw [h]

theorem assignShow_some (days : List DaySchedule) (s : Show) (i : Nat)
    (h : targetIdx days s = some i) :
    assignShow days s =
      modifyIdx (fun day => { day with shows := day.shows ++ [copyShow s] }) i days := by
  unfold targetIdx at h
  unfold assignShow
  cases hp : parseShowDate s.date with
  | none => simp only [hp] at h; exact Option.noConfusion h
  | some dz =>
    simp only [hp] at h
    show (match findLastIdx days (toISODateString dz) with
      | none => days
      | some i =>
        modifyIdx (fun day => { day with shows := day.shows ++ [copyShow s] }) i days) = _
    rw [h]

theorem assignShow_sum_len (days : List DaySchedule) (s : Show) :
    ((assignShow days s).map (fun day => day.shows.length)).sum =
      (days.map (fun day => day.shows.length)).sum +
        (if (targetIdx days s).isSome then 1 else 0) := by
  cases ht : targetIdx days s with
  | none => rw [assignShow_none days s ht]; simp
  | some j =>
    rw [assignShow_some days s j ht]
    simp only [Option.isSome_some, if_true]
    exact modifyIdx_sum_len j days (copyShow s) (targetIdx_lt days s j ht)

theorem foldl_assign_sum_len (shows : List Show) (days : List DaySchedule) :
    ((shows.foldl assignShow days).map (fun day => day.shows.length)).sum =
      ((days.map (fun day => day.shows.length)).sum) +
        (shows.filter (fun s => (targetIdx days s).isSome)).length := by
  induction shows generalizing days with
  | nil => simp
  | cons s rest ih =>
    rw [List.foldl_cons, ih (assignShow days s), assignShow_sum_len]
    have hfc : rest.filter (fun x => (targetIdx (assignShow days s) x).isSome)
        = rest.filter (fun x => (targetIdx days x).isSome) :=
      List.filter_congr (fun x _ => by
        rw [targetIdx_congr (assignShow days s) days (assignShow_map_date days s) x])
    rw [hfc, List.filter_cons]
    by_cases hs : (targetIdx days s).isSome = true
    · rw [if_pos hs, if_pos hs, List.length_cons]
      omega
    · rw [if_neg hs, if_neg hs]
      omega

/-- A show is routed to some day of the scaffold exactly when its date
parses and lands inside the week window. -/
theorem targetIdx_retained (d : Int) (s : Show) :
    (targetIdx (initDays (getWeekStart d)) s).isSome = retainedShow d s := by
  unfold targetIdx retainedShow
  cases hp : parseShowDate s.date with
  | none => rfl
  | some dz =>
    show (findLastIdx (initDays (getWeekStart d)) (toISODateString dz)).isSome =
      decide (getWeekStart d ≤ dz ∧ dz ≤ getWeekEnd d)
    rw [getWeekEnd_eq]
    apply Bool.eq_iff_iff.mpr
    rw [findLastIdx_isSome_iff, decide_eq_true_eq]
    exact mem_initDays_date_iff (getWeekStart d) dz

theorem organize_sum (shows : List Show) (d : Int) :
    ((organizeShowsByWeek shows d).days.map (fun day => day.shows.length)).sum =
      (shows.filter (retainedShow d)).length := by
  rw [organize_days_eq, List.map_map]
  have hcomp : ((fun day : DaySchedule => day.shows.length) ∘ sortDay) =
      (fun day : DaySchedule => day.shows.length) :=
    funext fun day => (List.perm_insertionSort timeLE day.shows).length_eq
  rw [hcomp, foldl_assign_sum_len]
  have h0 : ((initDays (getWeekStart d)).map (fun day => day.shows.length)).sum = 0 := by
    rw [initDays_eq]
    rfl
  have hfc : shows.filter (fun s => (targetIdx (initDays (getWeekStart d)) s).isSome)
      = shows.filter (retainedShow d) :=
    List.filter_congr (fun s _ => targetIdx_retained d s)
  rw [h0, hfc, Nat.zero_add]

/-- Insertion below a fixed key keeps the filtered-by-key subsequence: the
step case of stability of the per-day sort. -/
theorem filter_orderedInsert_time (t : Int) (a : Show) (l : List Show) :
    (List.orderedInsert timeLE a l).filter (fun x => parseShowTime x.time = t)
      = if parseShowTime a.time = t
        then a :: l.filter (fun x => parseShowTime x.time = t)
        else l.filter (fun x => parseShowTime x.time = t) := by
  induction l with
  | nil =>
    by_cases hpa : parseShowTime a.time = t <;>
      simp [List.orderedInsert, List.filter_cons, hpa]
  | cons b bs ih =>
    rw [List.orderedInsert]
    by_cases hab : timeLE a b
    · rw [if_pos hab]
      by_cases hpa : parseShowTime a.time = t <;> simp [List.filter_cons, hpa]
    · rw [if_neg hab]
      by_cases hpa : parseShowTime a.time = t
      · have hpb : ¬ parseShowTime b.time = t := by
          unfold timeLE at hab
          omega
        simp [List.filter_cons, hpa, hpb, ih]
      · simp [List.filter_cons, hpa, ih]

/-- Stability of the per-day sort: restricted to any one parsed-time value,
the sorted list is the original list in its original order. -/
theorem filter_insertionSort_time (t : Int) (l : List Show) :
    (List.insertionSort timeLE l).filter (fun x => parseShowTime x.time = t)
      = l.filter (fun x => parseShowTime x.time = t) := by
  induction l with
  | nil => rfl
  | cons a as ih =>
    rw [List.insertionSort, filter_orderedInsert_time, List.filter_cons]
    by_cases hpa : parseShowTime a.time = t
    · rw [if_pos hpa, if_pos (by simpa using hpa), ih]
    · rw [if_neg hpa, if_neg (by simpa using hpa), ih]

theorem mem_getD_of_mem {l : List DaySchedule} {day : DaySchedule} (h : day ∈ l) :
    ∃ j, j < l.length ∧ l.getD j dayDflt = day := by
  obtain ⟨j, hj, hval⟩ := List.mem_iff_getElem.mp h
  exact ⟨j, hj, by rw [List.getD_eq_getElem l dayDflt hj]; exact hval⟩

theorem takeWhile_all {α : Type} (p : α → Bool) (l : List α) (h : ∀ c ∈ l, p c = true) :
    l.takeWhile p = l := by
  induction l with
  | nil => rfl
  | cons c cs ih =>
    rw [List.takeWhile_cons, if_pos (h c (List.mem_cons_self c cs)),
      ih (fun x hx => h x (List.mem_cons_of_mem c hx))]

theorem digit_toNat_bounds (c : Char) (h : c.isDigit = true) :
    48 ≤ c.toNat ∧ c.toNat ≤ 57 := by
  simp [Char.isDigit] at h
  exact ⟨h.1, h.2⟩

theorem digit_not_ws (c : Char) (h : c.isDigit = true) : jsWhitespaceChar c = false := by
  have hb := digit_toNat_bounds c h
  unfold jsWhitespaceChar
  rw [decide_eq_false_iff_not]
  omega

theorem digit_ne_of_toNat (c : Char) (h : c.isDigit = true) (d : Char) (hd : d.toNat < 48) :
    c ≠ d := by
  intro he
  have hb := digit_toNat_bounds c h
  rw [he] at hb
  omega

/-- The date string "M/D/Y" built from decimal renderings of the three
numbers (how every date of the specification's examples is written). -/
def dateStringOf (m d y : Nat) : String :=
  String.mk (natDecChars m ++ '/' :: (natDecChars d ++ '/' :: natDecChars y))

theorem natDecChars_ne_slash (n : Nat) : ∀ c ∈ natDecChars n, c ≠ '/' :=
  fun c hc => digit_ne_of_toNat c (natDecChars_digits n c hc) '/' (by decide)

theorem splitOnChar_append (sep : Char) (a rest : List Char) (ha : ∀ c ∈ a, c ≠ sep) :
    splitOnChar sep (a ++ sep :: rest) = a :: splitOnChar sep rest := by
  induction a with
  | nil => simp [splitOnChar]
  | cons c cs ih =>
    simp only [List.cons_append, splitOnChar, List.append_eq]
    rw [if_neg (ha c (List.mem_cons_self c cs)),
      ih (fun x hx => ha x (List.mem_cons_of_mem c hx))]

theorem splitOnChar_single (sep : Char) (a : List Char) (ha : ∀ c ∈ a, c ≠ sep) :
    splitOnChar sep a = [a] := by
  induction a with
  | nil => rfl
  | cons c cs ih =>
    simp only [splitOnChar]
    rw [if_neg (ha c (List.mem_cons_self c cs)),
      ih (fun x hx => ha x (List.mem_cons_of_mem c hx))]

theorem dateStringOf_data (m d y : Nat) :
    (dateStringOf m d y).data =
      natDecChars m ++ '/' :: (natDecChars d ++ '/' :: natDecChars y) :=
  rfl

theorem dateStringOf_ne_empty (m d y : Nat) : dateStringOf m d y ≠ "" := by
  intro h
  have hd := congrArg String.data h
  rw [dateStringOf_data] at hd
  have hne : natDecChars m ++ '/' :: (natDecChars d ++ '/' :: natDecChars y) ≠ [] := by
    cases natDecChars m <;> simp
  exact hne (by simpa using hd)

theorem splitOnChar_dateStringOf (m d y : Nat) :
    splitOnChar '/' (dateStringOf m d y).data =
      [natDecChars m, natDecChars d, natDecChars y] := by
  rw [dateStringOf_data, splitOnChar_append '/' _ _ (natDecChars_ne_slash m),
    splitOnChar_append '/' _ _ (natDecChars_ne_slash d),
    splitOnChar_single '/' _ (natDecChars_ne_slash y)]

/-- `parseInt` reads the decimal rendering of a natural number back. -/
theorem jsParseInt_natDec (n : Nat) : jsParseInt (natDecChars n) = some (n : Int) := by
  have hdigits := natDecChars_digits n
  unfold jsParseInt
  cases hcc : natDecChars n with
  | nil => exact absurd hcc (natDecChars_ne_nil n)
  | cons c rest =>
    rw [hcc] at hdigits
    have hc := hdigits c (List.mem_cons_self c rest)
    rw [List.dropWhile_cons, if_neg (by rw [digit_not_ws c hc]; exact Bool.false_ne_true)]
    show (if c = '-' then _ else if c = '+' then _ else _) = _
    rw [if_neg (digit_ne_of_toNat c hc '-' (by decide)),
      if_neg (digit_ne_of_toNat c hc '+' (by decide))]
    simp only [takeWhile_all Char.isDigit (c :: rest) hdigits]
    rw [if_neg (by simp : ¬(c :: rest = []))]
    rw [← hcc, natDecChars_parse]

/-- `parseShowDate` on a rendered "M/D/Y" string: segment count and
`parseInt` always succeed, so the result is decided by the rollover check on
the constructed date alone. -/
theorem parseShowDate_render (m dd y : Nat) :
    parseShowDate (dateStringOf m dd y) =
      if jsGetMonth (jsDateCtor (y : Int) ((m : Int) - 1) (dd : Int)) ≠ (m : Int) - 1 ∨
          jsGetDate (jsDateCtor (y : Int) ((m : Int) - 1) (dd : Int)) ≠ (dd : Int) then none
      else some (jsDateCtor (y : Int) ((m : Int) - 1) (dd : Int)) := by
  unfold parseShowDate
  rw [if_neg (dateStringOf_ne_empty m dd y), splitOnChar_dateStringOf]
  simp only [jsParseInt_natDec]

/-- The filter predicate of `findMatchingShows`, characterized: truthy value
whose `artists` field is an array with an entry normalizing into the user
set. -/
theorem matcherPred_iff (names : List String) (s : JVal) :
    ((if isFalsy s then false
      else match getField s "artists" with
        | some (JVal.jarr arts) =>
          arts.any (fun artist => names.contains (normalizeArtistName artist))
        | _ => false) = true) ↔
      (isFalsy s = false ∧ ∃ arts, getField s "artists" = some (JVal.jarr arts) ∧
        ∃ a ∈ arts, normalizeArtistName a ∈ names) := by
  by_cases hf : isFalsy s = true
  · rw [if_pos hf]
    simp [hf]
  · simp only [Bool.not_eq_true] at hf
    rw [if_neg (by rw [hf]; exact Bool.false_ne_true)]
    cases hg : getField s "artists" with
    | none => simp [hf, hg]
    | some w =>
      cases w with
      | jarr arts =>
        simp only [hf, hg, Option.some.injEq, true_and, List.any_eq_true]
        constructor
        · intro ⟨a, ha, hc⟩
          exact ⟨arts, rfl, a, ha, by simpa using hc⟩
        · intro ⟨arts2, harts2, a, ha, hc⟩
          obtain rfl : arts2 = arts := by
            injection harts2 with h2
            exact h2.symm
          exact ⟨a, ha, by simpa using hc⟩
      | jnull => simp [hf, hg]
      | jundef => simp [hf, hg]
      | jbool b => simp [hf, hg]
      | jnum n => simp [hf, hg]
      | jstr t => simp [hf, hg]
      | jobj fields => simp [hf, hg]

theorem getField_isSome (v : JVal) (k : String) (h1 : v ≠ JVal.jnull)
    (h2 : v ≠ JVal.jundef) : (getField v k).isSome = true := by
  cases v with
  | jnull => exact absurd rfl h1
  | jundef => exact absurd rfl h2
  | jobj fields =>
    show (match List.lookup k fields with
      | some w => some w
      | none => some JVal.jundef).isSome = true
    cases List.lookup k fields <;> rfl
  | jbool b => rfl
  | jnum n => rfl
  | jstr s => rfl
  | jarr l => rfl

theorem assignShowJV_isSome (days : List DayScheduleJV) (v : JVal)
    (h1 : v ≠ JVal.jnull) (h2 : v ≠ JVal.jundef) :
    ∃ days2, assignShowJV days v = some days2 := by
  obtain ⟨w, hw⟩ := Option.isSome_iff_exists.mp (getField_isSome v "date" h1 h2)
  unfold assignShowJV
  simp only [hw]
  exact ⟨_, rfl⟩

theorem assignAllJV_isSome (xs : List JVal) (days : List DayScheduleJV)
    (h : ∀ v ∈ xs, v ≠ JVal.jnull ∧ v ≠ JVal.jundef) :
    (assignAllJV days xs).isSome = true := by
  induction xs generalizing days with
  | nil => rfl
  | cons v rest ih =>
    obtain ⟨days2, hd2⟩ := assignShowJV_isSome days v
      (h v (List.mem_cons_self v rest)).1 (h v (List.mem_cons_self v rest)).2
    unfold assignAllJV
    simp only [hd2]
    exact ih days2 (fun x hx => h x (List.mem_cons_of_mem v hx))

/-!
Concrete evaluations: the specification's worked examples (§8 and the
function tables), checked by computation.
-/

theorem check_parse_feb10 : parseShowDate "2/10/2026" = some (jsMakeDay 2026 1 10) := by decide

theorem check_parse_feb30 : parseShowDate "2/30/2026" = none := by decide

theorem check_time_examples :
    parseShowTime "09:30 AM" = 570 ∧ parseShowTime "12:00 AM" = 0 ∧
    parseShowTime "12:00 PM" = 720 ∧ parseShowTime "7:30PM" = 1170 ∧
    parseShowTime "invalid" = 0 ∧ parseShowTime "" = 0 := by decide

theorem check_week_window :
    getWeekStart (jsMakeDay 2026 1 11) = jsMakeDay 2026 1 9 ∧
    getWeekEnd (jsMakeDay 2026 1 11) = jsMakeDay 2026 1 15 ∧
    toISODateString (jsMakeDay 2026 1 9) = "2026-02-09" := by decide

theorem check_end_to_end :
    (organizeShowsByWeek
      [{ artists := ["Band A"], venue := "Venue 1", date := "2/10/2026", time := "08:00 PM" },
       { artists := ["Band B"], venue := "Venue 2", date := "2/10/2026", time := "07:00 PM" },
       { artists := ["Band C"], venue := "Venue 3", date := "2/12/2026", time := "12:00 AM" },
       { artists := ["Band D"], venue := "Venue 4", date := "2/15/2026", time := "09:00 PM" }]
      (jsMakeDay 2026 1 11)).days.map (fun day => (day.label, day.date, day.shows.map Show.venue)) =
    [("Mon", "2026-02-09", []), ("Tue", "2026-02-10", ["Venue 2", "Venue 1"]),
     ("Wed", "2026-02-11", []), ("Thu", "2026-02-12", ["Venue 3"]),
     ("Fri", "2026-02-13", []), ("Sat", "2026-02-14", []),
     ("Sun", "2026-02-15", ["Venue 4"])] := by decide

set_option maxRecDepth 10000 in
theorem check_normalize_unicode :
    normalizeArtistName (JVal.jstr "Sigur\t\tRos") = "sigur ros" ∧
    normalizeArtistName (JVal.jstr "BJÖRK") = "björk" ∧
    normalizeArtistName (JVal.jstr "ΒΑΓΓΕΛΗΣ") = "βαγγελης" ∧
    toLowerChars "İ".data = [Char.ofNat 105, Char.ofNat 775] ∧
    collapseWS "a\tb".data = "a b".data := by decide

/-!
The ten claims.
-/

/-- C1: For every array of shows and every reference date `d`, the
organizer's `days` array has exactly 7 entries, labeled positionally
Mon..Sun in that order, whose `date` fields are the ISO strings of the 7
consecutive calendar days starting at `getWeekStart d`; and a day entry is
present — with an empty show list — even when no show is routed to it. -/
theorem c1_seven_day_scaffold (shows : List Show) (d : Int) :
    (organizeShowsByWeek shows d).days.length = 7 ∧
    (organizeShowsByWeek shows d).days.map DaySchedule.label =
      ["Mon", "Tue", "Wed", "Thu", "Fri", "Sat", "Sun"] ∧
    (organizeShowsByWeek shows d).days.map DaySchedule.date =
      [toISODateString (getWeekStart d), toISODateString (getWeekStart d + 1),
       toISODateString (getWeekStart d + 2), toISODateString (getWeekStart d + 3),
       toISODateString (getWeekStart d + 4), toISODateString (getWeekStart d + 5),
       toISODateString (getWeekStart d + 6)] ∧
    (∀ i : Nat,
      shows.filter (fun s => targetIdx (initDays (getWeekStart d)) s = some i) = [] →
      ((organizeShowsByWeek shows d).days.getD i dayDflt).shows = []) := by
  refine ⟨organize_days_length shows d, ?_, ?_, ?_⟩
  · rw [organize_days_eq, List.map_map]
    have hcomp : (DaySchedule.label ∘ sortDay) = DaySchedule.label := funext fun day => rfl
    rw [hcomp, foldl_assign_map_label, initDays_map_label]
    rfl
  · rw [organize_days_eq, List.map_map]
    have hcomp : (DaySchedule.date ∘ sortDay) = DaySchedule.date := funext fun day => rfl
    rw [hcomp, foldl_assign_map_date, initDays_map_date]
  · intro i hempty
    rw [organize_bucket, hempty]
    rfl

/-- C2: A show whose date fails `parseShowDate` or whose parsed date falls
outside the week window of `d` appears in no day's list; each retained show
appears in exactly one day; and the day-list lengths sum to the number of
input shows with a valid, in-window date. -/
theorem c2_window_partition (shows : List Show) (d : Int) :
    (∀ day ∈ (organizeShowsByWeek shows d).days, ∀ s : Show,
        retainedShow d s = false → s ∉ day.shows) ∧
    (((organizeShowsByWeek shows d).days.map (fun day => day.shows.length)).sum
        = (shows.filter (retainedShow d)).length) ∧
    (∀ s ∈ shows, retainedShow d s = true →
      ∃ i, i < (organizeShowsByWeek shows d).days.length ∧
        ∀ j, j < (organizeShowsByWeek shows d).days.length →
          (s ∈ ((organizeShowsByWeek shows d).days.getD j dayDflt).shows ↔ j = i)) := by
  refine ⟨?_, organize_sum shows d, ?_⟩
  · intro day hday s hret hmem
    obtain ⟨j, hj, rfl⟩ := mem_getD_of_mem hday
    rw [organize_bucket] at hmem
    rw [List.mem_insertionSort timeLE] at hmem
    obtain ⟨hs_mem, hp⟩ := List.mem_filter.mp hmem
    rw [decide_eq_true_eq] at hp
    have hsome : (targetIdx (initDays (getWeekStart d)) s).isSome = true := by
      rw [hp]
      rfl
    rw [targetIdx_retained, hret] at hsome
    exact Bool.noConfusion hsome
  · intro s hs hret
    have hsome : (targetIdx (initDays (getWeekStart d)) s).isSome = true := by
      rw [targetIdx_retained]
      exact hret
    obtain ⟨i, hi⟩ := Option.isSome_iff_exists.mp hsome
    refine ⟨i, ?_, ?_⟩
    · rw [organize_days_length]
      have hlt := targetIdx_lt _ s i hi
      rwa [initDays_length] at hlt
    · intro j hj
      rw [organize_bucket, List.mem_insertionSort timeLE, List.mem_filter]
      constructor
      · rintro ⟨hmem, hpj⟩
        rw [decide_eq_true_eq, hi] at hpj
        exact (Option.some.inj hpj).symm
      · rintro rfl
        refine ⟨hs, ?_⟩
        rw [decide_eq_true_eq]
        exact hi

/-- C3: Within each day of the organizer's result the shows are
non-decreasing by `parseShowTime(time)` and the sort is stable: restricted
to any one parsed-time value, a day's list is exactly the input shows routed
to that day, in input order (so equal or unparseable times keep their
relative input order); in particular "12:00 AM" sorts before "01:00 AM" and
before "11:59 PM". -/
theorem c3_sorted_and_stable (shows : List Show) (d : Int) :
    (∀ day ∈ (organizeShowsByWeek shows d).days,
        day.shows.Pairwise (fun a b => parseShowTime a.time ≤ parseShowTime b.time)) ∧
    (∀ i : Nat, ∀ t : Int,
        ((organizeShowsByWeek shows d).days.getD i dayDflt).shows.filter
            (fun s => parseShowTime s.time = t)
          = (shows.filter (fun s => targetIdx (initDays (getWeekStart d)) s = some i)).filter
              (fun s => parseShowTime s.time = t)) ∧
    parseShowTime "12:00 AM" < parseShowTime "01:00 AM" ∧
    parseShowTime "01:00 AM" ≤ parseShowTime "11:59 PM" ∧
    parseShowTime "12:00 AM" < parseShowTime "11:59 PM" := by
  refine ⟨?_, ?_, by decide, by decide, by decide⟩
  · intro day hday
    rw [organize_days_eq] at hday
    obtain ⟨day2, hmem, rfl⟩ := List.mem_map.mp hday
    exact List.sorted_insertionSort timeLE day2.shows
  · intro i t
    rw [organize_bucket, filter_insertionSort_time]

set_option maxRecDepth 10000 in
/-- C4 counterexample: the apostrophe step does not normalize a curly
apostrophe (U+2019).  The source's character class consists of two ASCII
apostrophes, so "Guns N’ Roses" keeps its curly apostrophe and differs from
the straight-apostrophe form the claim promises. -/
theorem c4_curly_apostrophe_kept :
    normalizeArtistName (JVal.jstr "Guns N’ Roses") = "guns n’ roses" ∧
    normalizeArtistName (JVal.jstr "Guns N’ Roses") ≠ "guns n' roses" := by decide

set_option maxRecDepth 10000 in
/-- C4: normalization applies lowercase, trim, whitespace collapse, the
leading-"the" strip, " & "→" and ", the apostrophe step and a final trim in
this order, and maps every non-string input to "".  Amended: the apostrophe
step is the identity (its character class holds the ASCII apostrophe twice),
so curly apostrophes are not normalized.  The claim's examples hold. -/
theorem c4_normalize_pipeline :
    (∀ s : String, normalizeArtistName (JVal.jstr s) =
        String.mk (jsTrim (aposReplace (ampReplace (stripLeadingThe (collapseWS
          (jsTrim (toLowerChars s.data)))))))) ∧
    (∀ l : List Char, aposReplace l = l) ∧
    (∀ v : JVal, (∀ s : String, v ≠ JVal.jstr s) → normalizeArtistName v = "") ∧
    normalizeArtistName (JVal.jstr "THE STROKES") = "strokes" ∧
    normalizeArtistName (JVal.jstr "Strokes") = "strokes" ∧
    normalizeArtistName (JVal.jstr "Simon & Garfunkel") = "simon and garfunkel" ∧
    normalizeArtistName JVal.jnull = "" := by
  refine ⟨fun s => rfl, ?_, ?_, by decide, by decide, by decide, rfl⟩
  · intro l
    show l.map (fun c => if c = Char.ofNat 39 ∨ c = Char.ofNat 39 then Char.ofNat 39 else c) = l
    induction l with
    | nil => rfl
    | cons c cs ih =>
      rw [List.map_cons, ih]
      by_cases h : c = Char.ofNat 39
      · rw [if_pos (Or.inl h), h]
      · rw [if_neg (fun hc => h (hc.elim id id))]
  · intro v hv
    cases v with
    | jstr s => exact absurd rfl (hv s)
    | jnull => rfl
    | jundef => rfl
    | jbool b => rfl
    | jnum n => rfl
    | jarr l => rfl
    | jobj fields => rfl

/-- C5: On an array, the matcher never throws and returns exactly the shows
that are truthy values whose `artists` field is an array with at least one
entry normalizing into the user's set; malformed entries are silently
excluded. -/
theorem c5_matcher_membership (dateKey : JVal → Int) (names : List String)
    (l : List JVal) (s : JVal) :
    ∃ res, findMatchingShows dateKey names (JVal.jarr l) = some res ∧
      (s ∈ res ↔ s ∈ l ∧ (isFalsy s = false ∧
        ∃ arts, getField s "artists" = some (JVal.jarr arts) ∧
          ∃ a ∈ arts, normalizeArtistName a ∈ names)) := by
  refine ⟨_, rfl, ?_⟩
  rw [List.mem_insertionSort, List.mem_filter, matcherPred_iff]

/-- C6 counterexample: "2x" is a non-numeric segment, yet the string parses
(parseInt reads the digit prefix "2" and ignores the trailing garbage), so
"2x/10/2026" is accepted as February 10, 2026. -/
theorem c6_nonnumeric_segment_accepted :
    parseShowDate "2x/10/2026" = some (jsMakeDay 2026 1 10) := by decide

/-- C6: `parseShowDate` returns null for non-string input, for any segment
count other than three, and — via the rollover re-derivation check — exactly
for the month/day combinations that do not exist in the given year
("2/30/2026" is rejected, not rolled forward).  Amended: a segment makes the
parse fail only when `parseInt` yields NaN on it (no leading digits); a
segment with trailing garbage after digits, such as "2x", is accepted. -/
theorem c6_date_rejections :
    (∀ v : JVal, (∀ s : String, v ≠ JVal.jstr s) → parseShowDateJV v = none) ∧
    (∀ s : String, (splitOnChar '/' s.data).length ≠ 3 → parseShowDate s = none) ∧
    (∀ s : String, ∀ p1 p2 p3 : List Char, splitOnChar '/' s.data = [p1, p2, p3] →
        jsParseInt p1 = none ∨ jsParseInt p2 = none ∨ jsParseInt p3 = none →
        parseShowDate s = none) ∧
    (∀ m dd y : Nat, 1 ≤ m → m ≤ 12 → 100 ≤ y →
        (parseShowDate (dateStringOf m dd y) = none ↔
          ¬ (1 ≤ (dd : Int) ∧ (dd : Int) ≤ daysInMonth (y : Int) ((m : Int) - 1)))) ∧
    parseShowDate "2/30/2026" = none := by
  refine ⟨?_, ?_, ?_, ?_, by decide⟩
  · intro v hv
    unfold parseShowDateJV
    split
    · rfl
    · cases v with
      | jstr s => exact absurd rfl (hv s)
      | jnull => rfl
      | jundef => rfl
      | jbool b => rfl
      | jnum n => rfl
      | jarr xs => rfl
      | jobj fields => rfl
  · intro s hlen
    unfold parseShowDate
    split
    · rfl
    · cases hsp : splitOnChar '/' s.data with
      | nil => rfl
      | cons p1 t1 =>
        cases t1 with
        | nil => rfl
        | cons p2 t2 =>
          cases t2 with
          | nil => rfl
          | cons p3 t3 =>
            cases t3 with
            | nil => exact absurd (by rw [hsp]; rfl) hlen
            | cons p4 t4 => rfl
  · intro s p1 p2 p3 hsp hnan
    unfold parseShowDate
    split
    · rfl
    · simp only [hsp]
      rcases hnan with h | h | h
      · simp only [h]
      · simp only [h]
        cases jsParseInt p1 <;> rfl
      · simp only [h]
        cases jsParseInt p1 <;> cases jsParseInt p2 <;> rfl
  · intro m dd y hm1 hm2 hy
    rw [parseShowDate_render]
    have hctor : jsDateCtor (y : Int) ((m : Int) - 1) (dd : Int)
        = jsMakeDay (y : Int) ((m : Int) - 1) (dd : Int) := by
      unfold jsDateCtor
      rw [if_neg (by omega)]
    rw [hctor]
    have hiff := dateCheck_iff (y : Int) ((m : Int) - 1) (dd : Int)
    by_cases hK : jsGetMonth (jsMakeDay (y : Int) ((m : Int) - 1) (dd : Int)) = (m : Int) - 1 ∧
        jsGetDate (jsMakeDay (y : Int) ((m : Int) - 1) (dd : Int)) = (dd : Int)
    · rw [if_neg (by push_neg; exact ⟨hK.1, hK.2⟩)]
      constructor
      · intro hcon
        exact Option.noConfusion hcon
      · intro hcon
        exact absurd ⟨(hiff.mp hK).2.2.1, (hiff.mp hK).2.2.2⟩ hcon
    · rw [if_pos (by tauto)]
      constructor
      · intro _ hcon
        exact hK (hiff.mpr ⟨by omega, by omega, hcon.1, hcon.2⟩)
      · intro _
        rfl

/-- C7: the code does not deliver its documented range.  "99:99 PM" matches
the pattern (two digits each side) and yields (99+12)*60+99 = 6759 minutes,
far outside [0,1439]; "13:00 PM" yields 1500.  The JSDoc of `parseShowTime`
("minutes (0-1439), or 0 if unparseable") and the specification both promise
the range, so this is a bug in the code's validation, not in the
specification's reading of intent. -/
theorem c7_time_out_of_range :
    parseShowTime "99:99 PM" = 6759 ∧ ¬ (parseShowTime "99:99 PM" ≤ 1439) ∧
    parseShowTime "13:00 PM" = 1500 ∧ ¬ (parseShowTime "13:00 PM" ≤ 1439) := by decide

/-- C9 counterexample: one null element inside a genuine array aborts the
organizer (reading `show.date` on null throws a TypeError, modelled by
`none`), so malformed individual records are not always dropped or
defaulted. -/
theorem c9_null_element_throws :
    organizeShowsByWeekJV (JVal.jarr [JVal.jnull]) 0 = none := rfl

/-- C9: error boundaries, amended.  The matcher hard-fails exactly on
non-array top-level input and never for records inside a genuine array; the
organizer hard-fails on null top-level input, but it also throws for a null
or undefined element inside a genuine array (see the counterexample) — for
every other element shape it degrades gracefully. -/
theorem c9_error_boundaries :
    (∀ dateKey : JVal → Int, ∀ names : List String, ∀ v : JVal,
        (∀ l : List JVal, v ≠ JVal.jarr l) → findMatchingShows dateKey names v = none) ∧
    (∀ dateKey : JVal → Int, ∀ names : List String, ∀ l : List JVal,
        (findMatchingShows dateKey names (JVal.jarr l)).isSome = true) ∧
    (∀ shows : List JVal, ∀ d : Int,
        (∀ v ∈ shows, v ≠ JVal.jnull ∧ v ≠ JVal.jundef) →
        (organizeShowsByWeekJV (JVal.jarr shows) d).isSome = true) ∧
    (∀ d : Int, organizeShowsByWeekJV JVal.jnull d = none) := by
  refine ⟨?_, fun dateKey names l => rfl, ?_, fun d => rfl⟩
  · intro dateKey names v hv
    cases v with
    | jarr l => exact absurd rfl (hv l)
    | jnull => rfl
    | jundef => rfl
    | jbool b => rfl
    | jnum n => rfl
    | jstr s => rfl
    | jobj fields => rfl
  · intro shows d h
    have hall := assignAllJV_isSome shows (initDaysJV (getWeekStart d)) h
    obtain ⟨days2, hd2⟩ := Option.isSome_iff_exists.mp hall
    show (match assignAllJV (initDaysJV (getWeekStart d)) shows with
      | none => none
      | some days2 =>
        some ({ weekStartDate := getWeekStart d, weekEndDate := getWeekEnd d,
                days := days2.map sortDayJV } : WeekScheduleJV)).isSome = true
    rw [hd2]
    rfl

/-- C10: a year segment parsing to 0..99 is accepted and mapped to
1900 + Y by the `Date` constructor; the rollover check re-derives only month
and day, so the two-digit year is never rejected.  "1/1/26" parses to
January 1, 1926. -/
theorem c10_two_digit_year (m dd y : Nat) (hm1 : 1 ≤ m) (hm2 : m ≤ 12) (hy : y ≤ 99)
    (hd1 : 1 ≤ dd) (hd2 : (dd : Int) ≤ daysInMonth ((y : Int) + 1900) ((m : Int) - 1)) :
    parseShowDate (dateStringOf m dd y) =
      some (jsMakeDay ((y : Int) + 1900) ((m : Int) - 1) (dd : Int)) := by
  rw [parseShowDate_render]
  have hctor : jsDateCtor (y : Int) ((m : Int) - 1) (dd : Int)
      = jsMakeDay ((y : Int) + 1900) ((m : Int) - 1) (dd : Int) := by
    unfold jsDateCtor
    rw [if_pos (by omega)]
  rw [hctor]
  have hK := (dateCheck_iff ((y : Int) + 1900) ((m : Int) - 1) (dd : Int)).mpr
    ⟨by omega, by omega, by omega, hd2⟩
  rw [if_neg (by push_neg; exact ⟨hK.1, hK.2⟩)]

/-- C10 witness: "1/1/26" is accepted and denotes January 1, 1926. -/
theorem c10_two_digit_year_witness :
    parseShowDate (dateStringOf 1 1 26) =
      some (jsMakeDay (((26 : Nat) : Int) + 1900) (((1 : Nat) : Int) - 1) ((1 : Nat) : Int)) :=
  c10_two_digit_year 1 1 26 (by decide) (by decide) (by decide) (by decide) (by decide)
